import Mathlib

/-!
Verification of the Vault appliance bootstrap helper
(`scripts/_vault_state.py`, `scripts/_vault_commands.py`,
`scripts/_vault_bootstrap.py`, `scripts/bootstrap_vault_appliance.py`).

The Python modules are shallowly embedded: external commands are modelled
through an `Appliance` oracle supplying the (already captured) outcome of
every external call, and each embedded operation threads a `World` that
records the sequence of issued external calls (`VaultEvent` trace), the
per-endpoint call counters, and the current contents of the state file.
Python exceptions become `Except VaultBootstrapError`; `dict.get` accesses
become `Option` fields with the source's defaults.
-/

namespace VaultBootstrap

/-- Errors raised by the bootstrap helper.  Each constructor corresponds to
one `raise` site (or family of `raise` sites) in the Python source; the
spec's taxonomy names are noted next to the constructors. -/
inductive VaultBootstrapError where
  /-- `run_command`: a spawned process failed (`ProcessExecutionError`);
  spec: `CommandFailed`. Carries the command name and the stripped stderr. -/
  | commandFailed (command : String) (stderr : String)
  /-- `SystemExit` raised by the CLI configuration-resolution layer. -/
  | systemExit (message : String)
  /-- A failed `assert` in the CLI configuration-resolution layer. -/
  | assertionFailed (message : String)
  /-- A JSON payload from an external command failed to decode;
  spec: `StatusUnreadable` and friends. Tagged with the decode site. -/
  | invalidJson (source : String)
  /-- `collect_droplet_ips`: no public IPv4 addresses; spec: `NoHostsFound`. -/
  | noHostsFound (tag : String)
  /-- `_probe_vault_service`: the systemd unit reported something other
  than `active`; spec: `ServiceUnavailable`. -/
  | serviceNotActive (address : String) (output : String)
  /-- `_probe_vault_service` fallback error; spec: `ServiceUnavailable`. -/
  | serviceDidNotReport (address : String)
  /-- `initialise_vault`: "vault operator init did not return unseal keys
  and root token"; spec: `InitializationIncomplete`. -/
  | initIncomplete
  /-- `unseal_vault`: "No unseal keys recorded; cannot unseal Vault". -/
  | noUnsealKeys
  /-- `unseal_vault`: "Vault remains sealed after applying all key
  shares"; spec: `UnsealExhausted`. -/
  | unsealExhausted
  /-- `_validate_kv_mount`: "Existing mount at ... is not a KV engine";
  spec: `MountConflict`. -/
  | mountNotKv (mountKey : String)
  /-- `_validate_kv_mount`: "Existing mount at ... is not KV v2";
  spec: `MountConflict`. -/
  | mountNotV2 (mountKey : String)
  /-- `_generate_secret_id`: "Failed to retrieve secret_id from Vault". -/
  | secretIdMissing
  /-- `_ensure_unsealed`: "Vault is sealed but no unseal keys are recorded
  in the state file"; spec: `MissingUnsealMaterial`. -/
  | missingUnsealMaterial
  /-- `_ensure_unsealed`: "Vault remains sealed after unseal attempts";
  spec: `PostUnsealStillSealed`. -/
  | postUnsealStillSealed
  /-- `bootstrap`: "Missing root token in state; cannot continue". -/
  | missingRootToken
deriving Repr, DecidableEq

/-- The spec's `MountConflict` covers both `_validate_kv_mount`
failure messages. -/
def VaultBootstrapError.isMountConflict : VaultBootstrapError → Bool
  | .mountNotKv _ => true
  | .mountNotV2 _ => true
  | _ => false

/-- Embeds the `VaultBootstrapState` dataclass of `_vault_state.py`:
the durable bootstrap artefacts. -/
structure VaultBootstrapState where
  unseal_keys : List String := []
  root_token : Option String := none
  approle_role_id : Option String := none
  approle_secret_id : Option String := none
deriving Repr, DecidableEq

/-- Embeds `VaultBootstrapState()`: the dataclass's default construction. -/
def VaultBootstrapState.emptyState : VaultBootstrapState := {}

/-- Embeds `VaultBootstrapState.update_from_init` applied to a fresh state,
as done by `initialise_vault`: records the generated key shares and root
token, leaving the AppRole fields empty. -/
def VaultBootstrapState.fromInit (keys : List String) (root_token : String) :
    VaultBootstrapState :=
  { unseal_keys := keys, root_token := some root_token }

/-- Embeds the `VaultBootstrapConfig` dataclass of `_vault_state.py`.
`pathlib.Path` values are modelled as strings.  Note the dataclass itself
performs no validation (it has no `__post_init__`). -/
structure VaultBootstrapConfig where
  vault_addr : String
  droplet_tag : String
  state_file : String
  ssh_user : String := "root"
  ssh_identity : Option String := none
  kv_mount_path : String := "secret"
  approle_name : String := "doks-deployer"
  approle_policy_name : String := "doks-deployer"
  approle_policy_path : Option String := none
  key_shares : Int := 5
  key_threshold : Int := 3
  token_ttl : String := "1h"
  token_max_ttl : String := "4h"
  secret_id_ttl : String := "4h"
  rotate_secret_id : Bool := false
  ca_certificate : Option String := none
deriving Repr, DecidableEq

/-- Python's `str.strip()` (no arguments): remove leading and trailing
whitespace.  Defined over the character list so that it evaluates inside
the kernel. -/
def pyStrip (s : String) : String :=
  String.mk
    (((s.toList.dropWhile Char.isWhitespace).reverse.dropWhile
        Char.isWhitespace).reverse)

/-- Python's `str.lower()` over the character list. -/
def pyLower (s : String) : String :=
  String.mk (s.toList.map Char.toLower)

/-- Python truthiness of an `str | None` value: `None` and the empty
string are falsy.  Used to embed `not state.approle_secret_id` and
`role_id or None`. -/
def pyTruthy : Option String → Bool
  | none => false
  | some s => !s.isEmpty

/-! ### Host discovery (`_iter_public_ipv4`, `collect_droplet_ips`) -/

/-- One entry of a droplet's `networks.v4` list: a JSON object whose
`type` and `ip_address` keys may be absent. -/
structure NetworkInterface where
  type : Option String := none
  ip_address : Option String := none
deriving Repr, DecidableEq

/-- A droplet as consumed by `_iter_public_ipv4`: only
`droplet.get("networks", {}).get("v4", [])` is accessed, so a droplet is
modelled by that list (absent keys collapse to `[]`, as in the source). -/
structure Droplet where
  v4 : List NetworkInterface := []
deriving Repr, DecidableEq

/-- Inner loop of `_iter_public_ipv4` over one droplet's `v4` interfaces:
returns the addresses yielded for this droplet together with the updated
`seen` insertion-ordered set (modelled as the list of seen addresses). -/
def scanInterfaces : List NetworkInterface → List String →
    List String × List String
  | [], seen => ([], seen)
  | i :: rest, seen =>
    if i.type == some "public" then
      match i.ip_address with
      | some ip =>
        if !ip.isEmpty && !seen.contains ip then
          let r := scanInterfaces rest (seen ++ [ip])
          (ip :: r.1, r.2)
        else scanInterfaces rest seen
      | none => scanInterfaces rest seen
    else scanInterfaces rest seen

/-- Outer loop of `_iter_public_ipv4` over the droplet list, threading the
`seen` set across droplets. -/
def scanDroplets : List Droplet → List String → List String
  | [], _ => []
  | d :: rest, seen =>
    let r := scanInterfaces d.v4 seen
    r.1 ++ scanDroplets rest r.2

/-- Embeds `_iter_public_ipv4` (as a list rather than a generator):
deduplicated public IPv4 addresses in first-seen order. -/
def iterPublicIpv4 (droplets : List Droplet) : List String :=
  scanDroplets droplets []

/-- Specification-side extraction (from the spec's words, for the
refinement claim C5): the address of an interface explicitly marked
`"public"`, when it carries a non-empty address. -/
def extractPublicIp (i : NetworkInterface) : Option String :=
  if i.type == some "public" then
    match i.ip_address with
    | some ip => if ip.isEmpty then none else some ip
    | none => none
  else none

/-- Specification-side list of public addresses of all droplets, in
encounter order, duplicates retained (from the spec's words). -/
def publicAddresses (droplets : List Droplet) : List String :=
  droplets.flatMap (fun d => d.v4.filterMap extractPublicIp)

/-- Duplicate removal keeping first occurrences, relative to an initial
set of already-seen elements (from the spec's words: "deduplicates, and
preserves first-seen order"). -/
def dedupFrom : List String → List String → List String
  | _, [] => []
  | seen, x :: xs =>
    if seen.contains x then dedupFrom seen xs
    else x :: dedupFrom (seen ++ [x]) xs

/-- Duplicate removal keeping the first occurrence of each element. -/
def firstSeenDedup (l : List String) : List String := dedupFrom [] l

/-! ### Parsed payloads of the appliance's JSON responses -/

/-- Parsed `vault status -format=json` payload.  Only the two keys the
source reads are modelled; an `Option` value of `none` stands for an
absent key, so `status.get("initialized", False)` becomes
`initialized.getD false`. -/
structure StatusPayload where
  initialized : Option Bool := none
  sealed : Option Bool := none
deriving Repr, DecidableEq

/-- The JSON value found under `unseal_keys_b64` in the `operator init`
payload: the source only checks `isinstance(value, list)`, so the model
distinguishes a list of (string) shares from any non-list value. -/
inductive KeysField where
  | isList (keys : List String)
  | notList
deriving Repr, DecidableEq

/-- Parsed `vault operator init -format=json` payload; `none` fields stand
for absent (or JSON-null) keys, matching `payload.get(...)`. -/
structure InitPayload where
  unseal_keys_b64 : Option KeysField := none
  root_token : Option String := none
deriving Repr, DecidableEq

/-- Parsed `vault operator unseal -format=json` payload; the source reads
`payload.get("sealed", True)`. -/
structure UnsealPayload where
  sealed : Option Bool := none
deriving Repr, DecidableEq

/-- The `options` object of a mount in the `vault secrets list` payload. -/
structure MountOptions where
  version : Option String := none
deriving Repr, DecidableEq

/-- One mount of the `vault secrets list -format=json` payload; the source
reads `existing.get("type")` and `existing.get("options", {})`. -/
structure MountInfo where
  type : Option String := none
  options : Option MountOptions := none
deriving Repr, DecidableEq

/-- The `data` object of the `secret-id` write payload. -/
structure SecretIdData where
  secret_id : Option String := none
deriving Repr, DecidableEq

/-- Parsed payload of `vault write -force -format=json .../secret-id`;
the source reads `payload.get("data", {}).get("secret_id")`. -/
structure SecretIdPayload where
  data : Option SecretIdData := none
deriving Repr, DecidableEq

/-! ### External-call events and the world threaded through a run -/

/-- One external call issued by the bootstrap helper, or one write of the
state file.  The trace of these events is the observable behaviour a run
leaves behind. -/
inductive VaultEvent where
  /-- `doctl compute droplet list --tag-name <tag> --output json`. -/
  | dropletList
  /-- One `ssh ... systemctl is-active vault` probe of `address`. -/
  | sshProbe (address : String)
  /-- `vault status -format=json`. -/
  | statusQuery
  /-- `vault operator init -key-shares <shares> -key-threshold <threshold>`. -/
  | initCall (shares : Int) (threshold : Int)
  /-- `vault operator unseal -format=json <key>`. -/
  | unsealCall (key : String)
  /-- `vault secrets list -format=json`. -/
  | secretsListQuery
  /-- `vault secrets enable -path=<path> -version=2 kv`. -/
  | secretsEnable (path : String)
  /-- `vault auth list -format=json`. -/
  | authListQuery
  /-- `vault auth enable approle`. -/
  | authEnable
  /-- `vault policy write <name> -` with the policy document on stdin. -/
  | policyWrite (name : String) (content : String)
  /-- `vault write auth/approle/role/<name> ...`. -/
  | roleWrite (name : String)
  /-- `vault read -field=role_id auth/approle/role/<name>/role-id`. -/
  | roleIdRead (name : String)
  /-- `vault write -force -format=json auth/approle/role/<name>/secret-id`:
  the secret-rotation call. -/
  | secretIdWrite (name : String)
  /-- `save_state(path, state)`: an atomic write of the state file. -/
  | saveState (path : String) (state : VaultBootstrapState)
deriving Repr, DecidableEq

/-- The secret-rotation call of Identity Provisioning (claim C4). -/
def VaultEvent.isRotation : VaultEvent → Bool
  | .secretIdWrite _ => true
  | _ => false

/-- An unseal-endpoint call (claims C3 and C8). -/
def VaultEvent.isUnseal : VaultEvent → Bool
  | .unsealCall _ => true
  | _ => false

/-- A write of the state file (claims C7 and C10). -/
def VaultEvent.isSave : VaultEvent → Bool
  | .saveState _ _ => true
  | _ => false

/-- A secrets-engine or identity-provisioning call: everything issued by
`_configure_vault` (claims C8 and C10). -/
def VaultEvent.isConfigure : VaultEvent → Bool
  | .secretsListQuery => true
  | .secretsEnable _ => true
  | .authListQuery => true
  | .authEnable => true
  | .policyWrite _ _ => true
  | .roleWrite _ => true
  | .roleIdRead _ => true
  | .secretIdWrite _ => true
  | _ => false

/-- The mutable world a bootstrap run threads along: the trace of external
calls issued so far, per-endpoint call counters (used to index the oracle's
response streams), and the current contents of the state file (`none` when
the file does not exist, `some st` once it holds the serialisation of
`st`). -/
structure World where
  trace : List VaultEvent := []
  statusCalls : Nat := 0
  unsealCalls : Nat := 0
  sshCalls : Nat := 0
  disk : Option VaultBootstrapState := none
deriving Repr, DecidableEq

/-- Append one external-call event to the world's trace. -/
def World.addEvent (e : VaultEvent) (w : World) : World :=
  { w with trace := w.trace ++ [e] }

/-- The world at the start of a `bootstrap` run whose state file initially
holds `d0`. -/
def World.start (d0 : Option VaultBootstrapState) : World := { disk := d0 }

/-- The oracle describing the outcome of every external call a run may
issue.  Calls that can be issued several times (`vault status`,
`vault operator unseal`, `ssh`) are response streams indexed by the number
of calls of that kind already made.  `Except` outcomes let the oracle make
any call fail, covering both `CommandFailed` (non-zero exit) and a payload
that fails JSON decoding. -/
structure Appliance where
  droplets : Except VaultBootstrapError (List Droplet) :=
    (.error (.invalidJson "doctl"))
  ssh : Nat → Except VaultBootstrapError String := (fun _ => .ok "active")
  status : Nat → Except VaultBootstrapError StatusPayload :=
    (fun _ => .error (.invalidJson "status"))
  init : Except VaultBootstrapError InitPayload := (.error (.invalidJson "init"))
  unsealAt : Nat → Except VaultBootstrapError UnsealPayload :=
    (fun _ => .error (.invalidJson "unseal"))
  secretsList : Except VaultBootstrapError (List (String × MountInfo)) :=
    (.error (.invalidJson "secrets list"))
  secretsEnable : Except VaultBootstrapError Unit := (.ok ())
  authList : Except VaultBootstrapError (List String) :=
    (.error (.invalidJson "auth list"))
  authEnable : Except VaultBootstrapError Unit := (.ok ())
  policyWrite : Except VaultBootstrapError Unit := (.ok ())
  roleWrite : Except VaultBootstrapError Unit := (.ok ())
  roleId : Except VaultBootstrapError String := (.ok "")
  secretId : Except VaultBootstrapError SecretIdPayload :=
    (.error (.invalidJson "secret-id"))
  policyFile : String := ""

/-! ### Command helpers (`_vault_commands.py`) over the oracle and world -/

/-- Embeds `collect_droplet_ips` together with `_load_droplets`: issues the
`doctl` listing (one `dropletList` event), extracts the deduplicated public
IPv4 addresses, and fails with `NoHostsFound` when none are present.  A
`doctl` failure, undecodable JSON or a non-list root are the oracle's
`.error` outcome. -/
def collect_droplet_ips (tag : String) (ap : Appliance) (w : World) :
    Except VaultBootstrapError (List String) × World :=
  let w := w.addEvent .dropletList
  match ap.droplets with
  | .error e => (.error e, w)
  | .ok droplets =>
    let addresses := iterPublicIpv4 droplets
    if addresses.isEmpty then (.error (.noHostsFound tag), w)
    else (.ok addresses, w)

/-- The retry loop of `_probe_vault_service`: `fuel` remaining attempts
(3 on entry), carrying the last observed error as the source does; the
inter-attempt `time.sleep(2)` has no observable effect in this model. -/
def probeAttempts (ap : Appliance) (address : String) :
    Nat → Option VaultBootstrapError → World →
    Except VaultBootstrapError Unit × World
  | 0, last_error, w =>
    (.error (last_error.getD (.serviceDidNotReport address)), w)
  | n + 1, _last_error, w =>
    let idx := w.sshCalls
    let w := { w with trace := w.trace ++ [.sshProbe address],
                      sshCalls := idx + 1 }
    match ap.ssh idx with
    | .error e => probeAttempts ap address n (some e) w
    | .ok stdout =>
      let output := pyStrip stdout
      if output == "active" then (.ok (), w)
      else probeAttempts ap address n (some (.serviceNotActive address output)) w

/-- Embeds `_probe_vault_service`: up to 3 SSH probes of one address. -/
def _probe_vault_service (ap : Appliance) (address : String) (w : World) :
    Except VaultBootstrapError Unit × World :=
  probeAttempts ap address 3 none w

/-- Embeds `verify_vault_service`: probes every address in order, aborting
on the first failing host. -/
def verify_vault_service (addresses : List String) (ap : Appliance) (w : World) :
    Except VaultBootstrapError Unit × World :=
  match addresses with
  | [] => (.ok (), w)
  | address :: rest =>
    match _probe_vault_service ap address w with
    | (.error e, w) => (.error e, w)
    | (.ok _, w) => verify_vault_service rest ap w

/-- Embeds `fetch_vault_status`: one `vault status -format=json` call,
answered by the oracle's status stream at the current call index. -/
def fetch_vault_status (ap : Appliance) (w : World) :
    Except VaultBootstrapError StatusPayload × World :=
  let idx := w.statusCalls
  let w := { w with trace := w.trace ++ [.statusQuery], statusCalls := idx + 1 }
  (ap.status idx, w)

/-- The field checks `initialise_vault` performs on the decoded
`operator init` payload: `not isinstance(unseal_keys, list) or
root_token is None` raises, otherwise a fresh state is populated via
`update_from_init`. -/
def initStateFromPayload (payload : InitPayload) :
    Except VaultBootstrapError VaultBootstrapState :=
  match payload.unseal_keys_b64, payload.root_token with
  | some (.isList keys), some root_token =>
    .ok (VaultBootstrapState.fromInit keys root_token)
  | _, _ => .error .initIncomplete

/-- Embeds `initialise_vault`: one `operator init` call with the
configured share count and threshold, then the payload field checks. -/
def initialise_vault (config : VaultBootstrapConfig) (ap : Appliance)
    (w : World) : Except VaultBootstrapError VaultBootstrapState × World :=
  let w := w.addEvent (.initCall config.key_shares config.key_threshold)
  match ap.init with
  | .error e => (.error e, w)
  | .ok payload => (initStateFromPayload payload, w)

/-- The `for key in state.unseal_keys` loop of `unseal_vault`: applies the
remaining shares one at a time, stopping as soon as a reply's
`payload.get("sealed", True)` is false; the loop's `else` clause (all
shares applied, still sealed) is the `UnsealExhausted` failure. -/
def unsealLoop (ap : Appliance) :
    List String → World → Except VaultBootstrapError Unit × World
  | [], w => (.error .unsealExhausted, w)
  | key :: rest, w =>
    let idx := w.unsealCalls
    let w := { w with trace := w.trace ++ [.unsealCall key],
                      unsealCalls := idx + 1 }
    match ap.unsealAt idx with
    | .error e => (.error e, w)
    | .ok payload =>
      if payload.sealed.getD true then unsealLoop ap rest w
      else (.ok (), w)

/-- Embeds `unseal_vault`: refuses to run without recorded key shares,
then applies them in list order. -/
def unseal_vault (ap : Appliance) (state : VaultBootstrapState) (w : World) :
    Except VaultBootstrapError Unit × World :=
  if state.unseal_keys.isEmpty then (.error .noUnsealKeys, w)
  else unsealLoop ap state.unseal_keys w

/-- Python's `str.rstrip("/")`: drop every trailing slash. -/
def rstripSlashes (s : String) : String :=
  String.mk (s.toList.reverse.dropWhile (· == '/')).reverse

/-- Embeds `_validate_kv_mount`: an existing mount must report engine type
`"kv"` and option `version == "2"`. -/
def _validate_kv_mount (mount_key : String) (existing : MountInfo) :
    Except VaultBootstrapError Unit :=
  if existing.type != some "kv" then .error (.mountNotKv mount_key)
  else if (existing.options.getD {}).version != some "2" then
    .error (.mountNotV2 mount_key)
  else .ok ()

/-- Embeds `ensure_kv_engine`: lists the mounts, enables a KV v2 mount at
the configured path when absent, and otherwise validates the existing
mount without touching it. -/
def ensure_kv_engine (config : VaultBootstrapConfig) (ap : Appliance)
    (w : World) : Except VaultBootstrapError Unit × World :=
  let w := w.addEvent .secretsListQuery
  match ap.secretsList with
  | .error e => (.error e, w)
  | .ok mounts =>
    let mount_key := rstripSlashes config.kv_mount_path ++ "/"
    match mounts.lookup mount_key with
    | none =>
      let w := w.addEvent (.secretsEnable config.kv_mount_path)
      (ap.secretsEnable, w)
    | some existing => (_validate_kv_mount mount_key existing, w)

/-- Embeds `_default_policy`: the generated AppRole policy document
scoped to the KV mount's data and metadata paths. -/
def _default_policy (config : VaultBootstrapConfig) : String :=
  let mount := rstripSlashes config.kv_mount_path
  let data_path := mount ++ "/data/*"
  let metadata_path := mount ++ "/metadata/*"
  String.intercalate "\n"
    [ "path \"" ++ data_path ++ "\" \x7b",
      "  capabilities = [\"create\", \"read\", \"update\", \"list\"]",
      "\x7d",
      "",
      "path \"" ++ metadata_path ++ "\" \x7b",
      "  capabilities = [\"read\", \"list\", \"delete\"]",
      "\x7d",
      "" ] ++ "\n"

/-- Embeds `_ensure_approle_auth_enabled`: enable the approle auth method
only when `"approle/"` is not among the listed auth mounts. -/
def _ensure_approle_auth_enabled (ap : Appliance) (w : World) :
    Except VaultBootstrapError Unit × World :=
  let w := w.addEvent .authListQuery
  match ap.authList with
  | .error e => (.error e, w)
  | .ok mounts =>
    if mounts.contains "approle/" then (.ok (), w)
    else
      let w := w.addEvent .authEnable
      (ap.authEnable, w)

/-- Embeds `_write_approle_policy`: the policy document is the configured
override file's content when a policy path is set, else the generated
default; it is piped to `vault policy write <name> -`. -/
def _write_approle_policy (config : VaultBootstrapConfig) (ap : Appliance)
    (w : World) : Except VaultBootstrapError Unit × World :=
  let policy_content :=
    match config.approle_policy_path with
    | some _ => ap.policyFile
    | none => _default_policy config
  let w := w.addEvent (.policyWrite config.approle_policy_name policy_content)
  (ap.policyWrite, w)

/-- Embeds `_configure_approle_role`: one `vault write` of the role with
the configured policies and TTLs. -/
def _configure_approle_role (config : VaultBootstrapConfig) (ap : Appliance)
    (w : World) : Except VaultBootstrapError Unit × World :=
  let w := w.addEvent (.roleWrite config.approle_name)
  (ap.roleWrite, w)

/-- Embeds `_fetch_role_id`: reads the role-id, strips it, and maps an
empty result to `None` (`role_id or None`). -/
def _fetch_role_id (config : VaultBootstrapConfig) (ap : Appliance)
    (w : World) : Except VaultBootstrapError (Option String) × World :=
  let w := w.addEvent (.roleIdRead config.approle_name)
  match ap.roleId with
  | .error e => (.error e, w)
  | .ok stdout =>
    let role_id := pyStrip stdout
    (.ok (if role_id.isEmpty then none else some role_id), w)

/-- Embeds `_generate_secret_id`: one forced `secret-id` write, requiring
`payload["data"]["secret_id"]` in the decoded reply. -/
def _generate_secret_id (config : VaultBootstrapConfig) (ap : Appliance)
    (w : World) : Except VaultBootstrapError String × World :=
  let w := w.addEvent (.secretIdWrite config.approle_name)
  match ap.secretId with
  | .error e => (.error e, w)
  | .ok payload =>
    match (payload.data.getD {}).secret_id with
    | none => (.error .secretIdMissing, w)
    | some secret_id => (.ok secret_id, w)

/-- Embeds `ensure_approle`: enable auth, write policy, write role, read
the role id into the state, then rotate the role secret only when the
config's rotation flag is set or no (truthy) secret is recorded.  The
Python function mutates `state` in place; the embedding returns the
updated state. -/
def ensure_approle (config : VaultBootstrapConfig) (ap : Appliance)
    (state : VaultBootstrapState) (w : World) :
    Except VaultBootstrapError VaultBootstrapState × World :=
  match _ensure_approle_auth_enabled ap w with
  | (.error e, w) => (.error e, w)
  | (.ok _, w) =>
  match _write_approle_policy config ap w with
  | (.error e, w) => (.error e, w)
  | (.ok _, w) =>
  match _configure_approle_role config ap w with
  | (.error e, w) => (.error e, w)
  | (.ok _, w) =>
  match _fetch_role_id config ap w with
  | (.error e, w) => (.error e, w)
  | (.ok role_id, w) =>
    let state := { state with approle_role_id := role_id }
    let should_rotate :=
      config.rotate_secret_id || !(pyTruthy state.approle_secret_id)
    if should_rotate then
      match _generate_secret_id config ap w with
      | (.error e, w) => (.error e, w)
      | (.ok secret_id, w) =>
        (.ok { state with approle_secret_id := some secret_id }, w)
    else (.ok state, w)

/-! ### State store and orchestration (`_vault_state.py`, `_vault_bootstrap.py`) -/

/-- Embeds `save_state`: the temp-file/fsync/rename dance is atomic, so
its observable effect is one `saveState` event and the state file now
holding exactly `state`. -/
def save_state (path : String) (state : VaultBootstrapState) (w : World) :
    World :=
  { w with trace := w.trace ++ [.saveState path state], disk := some state }

/-- Embeds `load_state` over the world's (already schema-validated) state
file: an absent file yields the empty state.  The `StateCorrupt`
validation path of the source is not exercised by any claim and the file
contents are modelled post-validation. -/
def load_state (w : World) : VaultBootstrapState :=
  w.disk.getD VaultBootstrapState.emptyState

/-- Embeds `_discover_and_verify`: collect the droplet addresses and
verify the Vault systemd unit on each of them. -/
def _discover_and_verify (config : VaultBootstrapConfig) (ap : Appliance)
    (w : World) : Except VaultBootstrapError Unit × World :=
  match collect_droplet_ips config.droplet_tag ap w with
  | (.error e, w) => (.error e, w)
  | (.ok addresses, w) => verify_vault_service addresses ap w

/-- Embeds `_ensure_initialized`: query status; when already initialized
return the loaded state unchanged, otherwise initialise, persist the
brand-new state to the state file, and re-query status. -/
def _ensure_initialized (config : VaultBootstrapConfig) (ap : Appliance)
    (state : VaultBootstrapState) (w : World) :
    Except VaultBootstrapError (VaultBootstrapState × StatusPayload) × World :=
  match fetch_vault_status ap w with
  | (.error e, w) => (.error e, w)
  | (.ok status, w) =>
    if status.initialized.getD false then (.ok (state, status), w)
    else
      match initialise_vault config ap w with
      | (.error e, w) => (.error e, w)
      | (.ok state, w) =>
        let w := save_state config.state_file state w
        match fetch_vault_status ap w with
        | (.error e, w) => (.error e, w)
        | (.ok refreshed, w) => (.ok (state, refreshed), w)

/-- Embeds `_ensure_unsealed`: nothing to do when the status does not
report sealed; otherwise the recorded shares are required, are applied via
`unseal_vault`, and a follow-up status query must no longer report sealed
(`PostUnsealStillSealed` otherwise).  The Python function mutates the
`status` dict in place; the embedding returns the refreshed status. -/
def _ensure_unsealed (ap : Appliance) (state : VaultBootstrapState)
    (status : StatusPayload) (w : World) :
    Except VaultBootstrapError StatusPayload × World :=
  if !(status.sealed.getD false) then (.ok status, w)
  else if state.unseal_keys.isEmpty then (.error .missingUnsealMaterial, w)
  else
    match unseal_vault ap state w with
    | (.error e, w) => (.error e, w)
    | (.ok _, w) =>
      match fetch_vault_status ap w with
      | (.error e, w) => (.error e, w)
      | (.ok refreshed, w) =>
        if refreshed.sealed.getD false then (.error .postUnsealStillSealed, w)
        else (.ok refreshed, w)

/-- Embeds `_configure_vault`: KV engine convergence followed by AppRole
provisioning. -/
def _configure_vault (config : VaultBootstrapConfig) (ap : Appliance)
    (state : VaultBootstrapState) (w : World) :
    Except VaultBootstrapError VaultBootstrapState × World :=
  match ensure_kv_engine config ap w with
  | (.error e, w) => (.error e, w)
  | (.ok _, w) => ensure_approle config ap state w

/-- Embeds `bootstrap`: the top-level workflow.  `d0` is the initial
contents of the state file.  The `build_vault_env` plumbing carries no
observable behaviour in this model (the environment only parameterises
the spawned commands) and is omitted. -/
def bootstrap (config : VaultBootstrapConfig) (ap : Appliance)
    (d0 : Option VaultBootstrapState) :
    Except VaultBootstrapError VaultBootstrapState × World :=
  match _discover_and_verify config ap (World.start d0) with
  | (.error e, w) => (.error e, w)
  | (.ok _, w) =>
    let state := load_state w
    match _ensure_initialized config ap state w with
    | (.error e, w) => (.error e, w)
    | (.ok (state, status), w) =>
      match _ensure_unsealed ap state status w with
      | (.error e, w) => (.error e, w)
      | (.ok _, w) =>
        match state.root_token with
        | none => (.error .missingRootToken, w)
        | some _ =>
          match _configure_vault config ap state w with
          | (.error e, w) => (.error e, w)
          | (.ok state, w) => (.ok state, save_state config.state_file state w)

/-! ### The Command Executor (`run_command`, `CommandContext`)

A stand-alone model of the executor itself, for claim C9: what invocation
(program, arguments, environment overlay, stdin, timeout) is handed to the
process layer, and how a process failure is surfaced.  The trace model
above abstracts these details away; this model keeps them. -/

/-- Embeds the `CommandContext` dataclass: execution options for
`run_command`, every field defaulting to `None`. -/
structure CommandContext where
  env : Option (List (String × String)) := none
  stdin : Option String := none
  timeout : Option Nat := none
deriving Repr, DecidableEq

/-- The spec's `CommandInvocation`: what `run_command` hands to the
process layer (`bound.run(env=ctx.env, timeout=ctx.timeout)` with an
optional stdin redirection). -/
structure CommandInvocation where
  command : String
  args : List String
  env : Option (List (String × String))
  stdin : Option String
  timeout : Option Nat
deriving Repr, DecidableEq

/-- Outcome of the spawned process as seen by `run_command`: captured
stdout, or a `ProcessExecutionError` carrying stderr. -/
inductive ProcessOutcome where
  | success (stdout : String)
  | failure (stderr : String)
deriving Repr, DecidableEq

/-- The invocation `run_command(command, *args, context=context)` builds:
`ctx = context or CommandContext()`, whose fields are forwarded verbatim
to the process layer. -/
def runInvocation (command : String) (args : List String)
    (context : Option CommandContext) : CommandInvocation :=
  let ctx := context.getD {}
  { command := command, args := args, env := ctx.env, stdin := ctx.stdin,
    timeout := ctx.timeout }

/-- Embeds `run_command` over a process-layer oracle: returns the captured
stdout, or surfaces a `ProcessExecutionError` as a `VaultBootstrapError`
(`Command {command!r} failed: {exc.stderr.strip()}`). -/
def run_command (command : String) (args : List String)
    (context : Option CommandContext)
    (proc : CommandInvocation → ProcessOutcome) :
    Except VaultBootstrapError String :=
  match proc (runInvocation command args context) with
  | .success stdout => .ok stdout
  | .failure stderr => .error (.commandFailed command (pyStrip stderr))

/-- A command invocation enforces a timeout when one is forwarded to the
process layer (claim C9's "enforces a timeout"). -/
def enforcesTimeout (invocation : CommandInvocation) : Bool :=
  invocation.timeout.isSome

/-- The invocation issued by `fetch_vault_status`:
`run_command("vault", "status", "-format=json",
context=CommandContext(env=env))` — note the context carries no timeout. -/
def fetch_vault_status_invocation (env : List (String × String)) :
    CommandInvocation :=
  runInvocation "vault" ["status", "-format=json"] (some { env := some env })

/-- The invocation issued by `_probe_vault_service`:
`run_command("ssh", *ssh_args, context=CommandContext(timeout=30))` —
the only call site that sets a timeout. -/
def probe_vault_service_invocation (ssh_args : List String) :
    CommandInvocation :=
  runInvocation "ssh" ssh_args (some { timeout := some 30 })

/-! ### CLI configuration resolution (`bootstrap_vault_appliance.py`)

The layer that constructs a `VaultBootstrapConfig` from CLI parameters and
environment variables.  CLI parameter values are `RawValue`s (`cyclopts`
`Parameter` sentinels collapse to `none`, as `resolve_input` treats them
as unset); `pathlib.Path` is a string. -/

/-- A Python value flowing through `resolve_input`: a CLI string, a
`pathlib.Path`, an `int` CLI parameter, or a `bool` CLI parameter. -/
inductive RawValue where
  | str (s : String)
  | path (p : String)
  | intVal (i : Int)
  | boolVal (b : Bool)
deriving Repr, DecidableEq

/-- Embeds the `InputResolution` dataclass of `_input_resolution.py`. -/
structure InputResolution where
  env_key : String
  default : Option RawValue := none
  required : Bool := false
  as_path : Bool := false
deriving Repr, DecidableEq

/-- Python's `str(value)` on a resolved value. -/
def rawStr : RawValue → String
  | .str s => s
  | .path p => p
  | .intVal i => toString i
  | .boolVal b => if b then "True" else "False"

/-- Python's `str(value)` on an optional resolved value
(`str(None) == "None"`). -/
def rawOptStr : Option RawValue → String
  | none => "None"
  | some v => rawStr v

/-- Embeds `resolve_input`: CLI parameter first, then the environment
variable (wrapped as a `Path` when `as_path`), then — unless the input is
required, which raises `SystemExit` — the default. -/
def resolve_input (param_value : Option RawValue)
    (resolution : InputResolution) (env : List (String × String)) :
    Except VaultBootstrapError (Option RawValue) :=
  match param_value with
  | some v => .ok (some v)
  | none =>
    match env.lookup resolution.env_key with
    | some env_value =>
      .ok (some (if resolution.as_path then .path env_value else .str env_value))
    | none =>
      if resolution.required then
        .error (.systemExit (resolution.env_key ++ " is required"))
      else .ok resolution.default

/-- Decimal digit run accepted by Python's `int()` (sign handled by the
caller; digit-group underscores are not modelled). -/
def parseDigits (cs : List Char) : Option Nat :=
  if cs.isEmpty then none
  else if cs.all (·.isDigit) then
    some (cs.foldl (fun acc c => acc * 10 + (c.toNat - 48)) 0)
  else none

/-- Python's `int(s)` on a string: surrounding whitespace, an optional
sign, then decimal digits. -/
def parsePyInt (s : String) : Option Int :=
  match (pyStrip s).toList with
  | [] => none
  | c :: rest =>
    if c == '-' then (parseDigits rest).map (fun n => -(n : Int))
    else if c == '+' then (parseDigits rest).map (fun n => (n : Int))
    else (parseDigits (c :: rest)).map (fun n => (n : Int))

/-- The `int(raw)` conversion inside `_resolve_shamir_config`, with its
`except (TypeError, ValueError)` handler: any non-convertible value
(including `None`) raises `SystemExit("<label> must be an integer...")`. -/
def pyIntOrExit (label : String) : Option RawValue →
    Except VaultBootstrapError Int
  | some (.intVal i) => .ok i
  | some (.boolVal b) => .ok (if b then 1 else 0)
  | some (.str s) =>
    match parsePyInt s with
    | some i => .ok i
    | none => .error (.systemExit (label ++ " must be an integer"))
  | some (.path _) => .error (.systemExit (label ++ " must be an integer"))
  | none => .error (.systemExit (label ++ " must be an integer"))

/-- The `_KEY_THRESHOLD_ERROR` message. -/
def keyThresholdError : String := "--key-threshold must be <= --key-shares"

/-- Embeds `InputResolution(env_key="KEY_SHARES", default="5")`. -/
def keySharesResolution : InputResolution :=
  { env_key := "KEY_SHARES", default := some (.str "5") }

/-- Embeds `InputResolution(env_key="KEY_THRESHOLD", default="3")`. -/
def keyThresholdResolution : InputResolution :=
  { env_key := "KEY_THRESHOLD", default := some (.str "3") }

/-- Embeds the `VaultInitConfig` dataclass: the raw CLI inputs of the
Shamir parameters. -/
structure VaultInitConfig where
  key_shares : Option RawValue := none
  key_threshold : Option RawValue := none
deriving Repr, DecidableEq

/-- Embeds the `ShamirConfig` dataclass: the resolved Shamir parameters. -/
structure ShamirConfig where
  key_shares : Int
  key_threshold : Int
deriving Repr, DecidableEq

/-- Embeds `_resolve_shamir_config`: resolve and convert both Shamir
parameters, then reject `key_threshold > key_shares` with
`_KEY_THRESHOLD_ERROR` before any config is produced. -/
def _resolve_shamir_config (vault_init : VaultInitConfig)
    (env : List (String × String)) :
    Except VaultBootstrapError ShamirConfig := do
  let raw_key_shares ← resolve_input vault_init.key_shares keySharesResolution env
  let resolved_key_shares ← pyIntOrExit "KEY_SHARES" raw_key_shares
  let raw_key_threshold ←
    resolve_input vault_init.key_threshold keyThresholdResolution env
  let resolved_key_threshold ← pyIntOrExit "KEY_THRESHOLD" raw_key_threshold
  if resolved_key_threshold > resolved_key_shares then
    .error (.systemExit keyThresholdError)
  else
    .ok { key_shares := resolved_key_shares,
          key_threshold := resolved_key_threshold }

/-- Embeds the `ConnectionConfig` dataclass (raw CLI inputs). -/
structure ConnectionConfig where
  vault_addr : Option RawValue := none
  droplet_tag : Option RawValue := none
  state_file : Option RawValue := none
  ca_certificate : Option RawValue := none
deriving Repr, DecidableEq

/-- Embeds the `SSHConfig` dataclass (raw CLI inputs). -/
structure SSHConfig where
  ssh_user : Option RawValue := none
  ssh_identity : Option RawValue := none
deriving Repr, DecidableEq

/-- Embeds the `AppRoleConfig` dataclass (raw CLI inputs). -/
structure AppRoleConfig where
  kv_mount_path : Option RawValue := none
  approle_name : Option RawValue := none
  approle_policy_name : Option RawValue := none
  approle_policy_path : Option RawValue := none
  approle_policy_content : Option RawValue := none
  token_ttl : Option RawValue := none
  token_max_ttl : Option RawValue := none
  secret_id_ttl : Option RawValue := none
  rotate_secret_id : Option RawValue := none
deriving Repr, DecidableEq

/-- Embeds the `BootstrapInputs` dataclass: the grouped raw inputs. -/
structure BootstrapInputs where
  connection : ConnectionConfig := {}
  ssh : SSHConfig := {}
  approle : AppRoleConfig := {}
  vault_init : VaultInitConfig := {}
deriving Repr, DecidableEq

/-- Embeds the `ResolvedConnectionConfig` dataclass. -/
structure ResolvedConnectionConfig where
  vault_addr : String
  droplet_tag : String
  state_file : String
  ca_certificate : Option String
deriving Repr, DecidableEq

/-- Embeds the `ResolvedSSHConfig` dataclass. -/
structure ResolvedSSHConfig where
  ssh_user : String
  ssh_identity : Option String
deriving Repr, DecidableEq

/-- Embeds the `ResolvedAppRoleConfig` dataclass. -/
structure ResolvedAppRoleConfig where
  kv_mount_path : String
  approle_name : String
  approle_policy_name : String
  approle_policy_path : Option String
deriving Repr, DecidableEq

/-- A resolved value as an optional path, mirroring the source's
`value if isinstance(value, Path) else None` coercions. -/
def rawAsPath : Option RawValue → Option String
  | some (.path p) => some p
  | _ => none

/-- Embeds `_resolve_core_config`, including the
`assert isinstance(resolved_state_file, Path)` guard. -/
def _resolve_core_config (connection : ConnectionConfig)
    (env : List (String × String)) :
    Except VaultBootstrapError ResolvedConnectionConfig := do
  let resolved_state_file ← resolve_input connection.state_file
    { env_key := "STATE_FILE", required := true, as_path := true } env
  let state_file ← (match resolved_state_file with
    | some (.path p) => Except.ok p
    | _ => Except.error (.assertionFailed "STATE_FILE must resolve to a Path"))
  let resolved_vault_addr ← resolve_input connection.vault_addr
    { env_key := "VAULT_ADDRESS", required := true } env
  let resolved_droplet_tag ← resolve_input connection.droplet_tag
    { env_key := "DROPLET_TAG", required := true } env
  let resolved_ca_certificate ← resolve_input connection.ca_certificate
    { env_key := "CA_CERT_PATH", as_path := true } env
  .ok { vault_addr := rawOptStr resolved_vault_addr,
        droplet_tag := rawOptStr resolved_droplet_tag,
        state_file := state_file,
        ca_certificate := rawAsPath resolved_ca_certificate }

/-- Embeds `_resolve_ssh_config`. -/
def _resolve_ssh_config (ssh : SSHConfig) (env : List (String × String)) :
    Except VaultBootstrapError ResolvedSSHConfig := do
  let resolved_ssh_user ← resolve_input ssh.ssh_user
    { env_key := "SSH_USER", default := some (.str "root") } env
  let resolved_ssh_identity ← resolve_input ssh.ssh_identity
    { env_key := "SSH_IDENTITY", as_path := true } env
  .ok { ssh_user := rawOptStr resolved_ssh_user,
        ssh_identity := rawAsPath resolved_ssh_identity }

/-- Embeds `Path.parent` on the string model of a path: everything before the
last slash (`"."` when there is none, as for `Path("x").parent`). -/
def pathParent (p : String) : String :=
  let chars := p.toList
  if chars.contains '/' then
    String.mk (chars.reverse.dropWhile (· != '/')).reverse.dropLast
  else "."

/-- Embeds `_ensure_policy_path`: an explicit policy path wins; otherwise
truthy inline policy content is persisted to
`state_file.parent / "approle-policy.hcl"` (a local file write, not an
external command) and that destination is used. -/
def _ensure_policy_path (approle_policy_path : Option String)
    (approle_policy_content : Option String) (state_file : String) :
    Option String :=
  match approle_policy_path with
  | some p => some p
  | none =>
    match approle_policy_content with
    | none => none
    | some content =>
      if content.isEmpty then none
      else some (pathParent state_file ++ "/approle-policy.hcl")

/-- Embeds `_resolve_approle_config`. -/
def _resolve_approle_config (approle : AppRoleConfig) (state_file : String)
    (env : List (String × String)) :
    Except VaultBootstrapError ResolvedAppRoleConfig := do
  let resolved_kv_mount_path ← resolve_input approle.kv_mount_path
    { env_key := "KV_MOUNT_PATH", default := some (.str "secret") } env
  let resolved_approle_name ← resolve_input approle.approle_name
    { env_key := "APPROLE_NAME", default := some (.str "doks-deployer") } env
  let resolved_approle_policy_name ← resolve_input approle.approle_policy_name
    { env_key := "APPROLE_POLICY_NAME",
      default := some (.str "doks-deployer") } env
  let resolved_policy_content ← resolve_input approle.approle_policy_content
    { env_key := "APPROLE_POLICY" } env
  let resolved_approle_policy_path ← resolve_input approle.approle_policy_path
    { env_key := "APPROLE_POLICY_PATH", as_path := true } env
  let policy_path := _ensure_policy_path (rawAsPath resolved_approle_policy_path)
    (resolved_policy_content.map rawStr) state_file
  .ok { kv_mount_path := rawOptStr resolved_kv_mount_path,
        approle_name := rawOptStr resolved_approle_name,
        approle_policy_name := rawOptStr resolved_approle_policy_name,
        approle_policy_path := policy_path }

/-- Embeds the `TTLConfig` dataclass. -/
structure TTLConfig where
  token_ttl : String
  token_max_ttl : String
  secret_id_ttl : String
  rotate_secret_id : Bool
deriving Repr, DecidableEq

/-- Embeds `_to_bool`: a `bool` passes through, `None` is false, and a
string is truthy when its stripped lowercase form is one of
`{"1", "true", "yes", "on"}`. -/
def _to_bool : Option RawValue → Bool
  | some (.boolVal b) => b
  | none => false
  | some v => ["1", "true", "yes", "on"].contains (pyLower (pyStrip (rawStr v)))

/-- Embeds `_resolve_ttl_config`. -/
def _resolve_ttl_config (approle : AppRoleConfig)
    (env : List (String × String)) : Except VaultBootstrapError TTLConfig := do
  let resolved_token_ttl ← resolve_input approle.token_ttl
    { env_key := "TOKEN_TTL", default := some (.str "1h") } env
  let resolved_token_max_ttl ← resolve_input approle.token_max_ttl
    { env_key := "TOKEN_MAX_TTL", default := some (.str "4h") } env
  let resolved_secret_id_ttl ← resolve_input approle.secret_id_ttl
    { env_key := "SECRET_ID_TTL", default := some (.str "4h") } env
  let resolved_rotate ← resolve_input approle.rotate_secret_id
    { env_key := "ROTATE_SECRET_ID", default := some (.str "false") } env
  .ok { token_ttl := rawOptStr resolved_token_ttl,
        token_max_ttl := rawOptStr resolved_token_max_ttl,
        secret_id_ttl := rawOptStr resolved_secret_id_ttl,
        rotate_secret_id := _to_bool resolved_rotate }

/-- Embeds `build_config`: resolve every input group and assemble the
`VaultBootstrapConfig`.  Every failure is a `SystemExit` (or failed
assert) raised before `bootstrap` — hence before any external command —
is reached. -/
def build_config (inputs : BootstrapInputs) (env : List (String × String)) :
    Except VaultBootstrapError VaultBootstrapConfig := do
  let core ← _resolve_core_config inputs.connection env
  let ssh_cfg ← _resolve_ssh_config inputs.ssh env
  let approle_cfg ← _resolve_approle_config inputs.approle core.state_file env
  let shamir_cfg ← _resolve_shamir_config inputs.vault_init env
  let ttl_cfg ← _resolve_ttl_config inputs.approle env
  .ok { vault_addr := core.vault_addr,
        droplet_tag := core.droplet_tag,
        state_file := core.state_file,
        ssh_user := ssh_cfg.ssh_user,
        ssh_identity := ssh_cfg.ssh_identity,
        kv_mount_path := approle_cfg.kv_mount_path,
        approle_name := approle_cfg.approle_name,
        approle_policy_name := approle_cfg.approle_policy_name,
        approle_policy_path := approle_cfg.approle_policy_path,
        key_shares := shamir_cfg.key_shares,
        key_threshold := shamir_cfg.key_threshold,
        token_ttl := ttl_cfg.token_ttl,
        token_max_ttl := ttl_cfg.token_max_ttl,
        secret_id_ttl := ttl_cfg.secret_id_ttl,
        rotate_secret_id := ttl_cfg.rotate_secret_id,
        ca_certificate := core.ca_certificate }

/-- Embeds the `main` command's flow: build the configuration, then — and
only then — run `bootstrap`.  A configuration failure therefore leaves the
external-call trace empty. -/
def runMain (inputs : BootstrapInputs) (env : List (String × String))
    (ap : Appliance) (d0 : Option VaultBootstrapState) :
    Except VaultBootstrapError VaultBootstrapState × World :=
  match build_config inputs env with
  | .error e => (.error e, World.start d0)
  | .ok config => bootstrap config ap d0

/-! ### Oracle-side predicates used in theorem statements -/

/-- The `j`-th unseal call decodes and still reports sealed (a missing
`sealed` key defaults to `True` in the source). -/
def reportsSealed (ap : Appliance) (j : Nat) : Prop :=
  ∃ p, ap.unsealAt j = .ok p ∧ p.sealed.getD true = true

/-- The `j`-th unseal call decodes and reports `sealed == false`. -/
def reportsUnsealed (ap : Appliance) (j : Nat) : Prop :=
  ∃ p, ap.unsealAt j = .ok p ∧ p.sealed.getD true = false

/-! ### Concrete fixtures used by witnesses and counterexamples -/

/-- A minimal configuration (all defaulted fields), as
`VaultBootstrapConfig("https://vault", "tag", Path("state.json"))`. -/
def cfgFixture : VaultBootstrapConfig :=
  { vault_addr := "https://vault", droplet_tag := "tag",
    state_file := "state.json" }

/-- Droplet fixture: one public address listed twice, one private
address, and a second public address. -/
def dropletsFixture : List Droplet :=
  [ { v4 := [ { type := some "public", ip_address := some "203.0.113.10" },
              { type := some "private", ip_address := some "10.0.0.5" },
              { type := some "public", ip_address := some "203.0.113.10" } ] },
    { v4 := [ { type := some "public", ip_address := some "203.0.113.11" } ] } ]

/-- Appliance fixture for the post-unseal claim: one public droplet, a
status endpoint that always reports initialized-and-sealed, and an unseal
endpoint that first reports unsealed on the 3rd call. -/
def apPostSealFixture : Appliance :=
  { droplets := .ok
      [ { v4 := [ { type := some "public",
                    ip_address := some "203.0.113.10" } ] } ],
    status := fun _ => .ok { initialized := some true, sealed := some true },
    unsealAt := fun j => .ok { sealed := some (decide (j < 2)) } }

/-- State-file fixture with four recorded shares and a root token. -/
def statePostSealFixture : VaultBootstrapState :=
  { unseal_keys := ["k1", "k2", "k3", "k4"], root_token := some "root" }

/-- Appliance fixture for the missing-root-token claim: one public
droplet and an appliance already initialized and unsealed (so neither
init nor unseal runs, and the loaded state's root token is decisive). -/
def apNoRootFixture : Appliance :=
  { droplets := .ok
      [ { v4 := [ { type := some "public",
                    ip_address := some "203.0.113.10" } ] } ],
    status := fun _ => .ok { initialized := some true, sealed := some false } }

/-! ## Theorems

First the helper lemmas about the list-processing and loop functions,
then one theorem per claim (with witnesses and counterexamples). -/

/-- Unfolding of `dedupFrom` when the head was already seen. -/
theorem dedupFrom_cons_mem {seen : List String} {y : String}
    (ys : List String) (h : y ∈ seen) :
    dedupFrom seen (y :: ys) = dedupFrom seen ys := by
  simp [dedupFrom, h]

/-- Unfolding of `dedupFrom` when the head is new. -/
theorem dedupFrom_cons_not_mem {seen : List String} {y : String}
    (ys : List String) (h : y ∉ seen) :
    dedupFrom seen (y :: ys) = y :: dedupFrom (seen ++ [y]) ys := by
  simp [dedupFrom, h]

/-- The interface scan of one droplet yields exactly the first-seen
deduplication (relative to `seen`) of the droplet's public addresses, and
extends `seen` by exactly the yielded addresses. -/
theorem scanInterfaces_eq (ifaces : List NetworkInterface) :
    ∀ seen, scanInterfaces ifaces seen =
      (dedupFrom seen (ifaces.filterMap extractPublicIp),
       seen ++ dedupFrom seen (ifaces.filterMap extractPublicIp)) := by
  induction ifaces with
  | nil => intro seen; simp [scanInterfaces, dedupFrom]
  | cons i rest ih =>
    intro seen
    cases htype : (i.type == some "public") with
    | false =>
      simp [scanInterfaces, htype, extractPublicIp, List.filterMap_cons, ih]
    | true =>
      cases hip : i.ip_address with
      | none =>
        simp [scanInterfaces, htype, hip, extractPublicIp,
          List.filterMap_cons, ih]
      | some ip =>
        cases hemp : ip.isEmpty with
        | true =>
          simp [scanInterfaces, htype, hip, hemp, extractPublicIp,
            List.filterMap_cons, ih]
        | false =>
          by_cases hseen : ip ∈ seen
          · simp [scanInterfaces, htype, hip, hemp, hseen, extractPublicIp,
              List.filterMap_cons, ih, dedupFrom]
          · simp [scanInterfaces, htype, hip, hemp, hseen, extractPublicIp,
              List.filterMap_cons, ih, dedupFrom]

/-- First-seen deduplication distributes over append, the second block
being deduplicated relative to everything already emitted. -/
theorem dedupFrom_append (a : List String) :
    ∀ seen b, dedupFrom seen (a ++ b) =
      dedupFrom seen a ++ dedupFrom (seen ++ dedupFrom seen a) b := by
  induction a with
  | nil => intro seen b; simp [dedupFrom]
  | cons x xs ih =>
    intro seen b
    by_cases h : x ∈ seen
    · simp [dedupFrom, h, ih]
    · simp [dedupFrom, h, ih]

/-- The droplet scan computes first-seen deduplication of the
concatenated public addresses. -/
theorem scanDroplets_eq (droplets : List Droplet) :
    ∀ seen, scanDroplets droplets seen =
      dedupFrom seen (publicAddresses droplets) := by
  induction droplets with
  | nil => intro seen; simp [scanDroplets, publicAddresses, dedupFrom]
  | cons d rest ih =>
    intro seen
    simp [scanDroplets, publicAddresses, List.flatMap_cons, scanInterfaces_eq,
      ih, dedupFrom_append]

/-- The function `_iter_public_ipv4` is first-seen deduplication of the public
addresses in encounter order. -/
theorem iterPublicIpv4_eq (droplets : List Droplet) :
    iterPublicIpv4 droplets = firstSeenDedup (publicAddresses droplets) := by
  simp [iterPublicIpv4, firstSeenDedup, scanDroplets_eq]

/-- Membership in a first-seen deduplication: exactly the input's
elements that are not already in the seen set. -/
theorem dedupFrom_mem (l : List String) :
    ∀ seen (x : String), x ∈ dedupFrom seen l ↔ x ∈ l ∧ x ∉ seen := by
  induction l with
  | nil => intro seen x; simp [dedupFrom]
  | cons y ys ih =>
    intro seen x
    by_cases hy : y ∈ seen
    · rw [dedupFrom_cons_mem ys hy, ih]
      constructor
      · rintro ⟨hx, hc⟩; exact ⟨List.mem_cons_of_mem y hx, hc⟩
      · rintro ⟨hx, hc⟩
        rcases List.mem_cons.mp hx with rfl | hx'
        · exact absurd hy hc
        · exact ⟨hx', hc⟩
    · rw [dedupFrom_cons_not_mem ys hy]
      constructor
      · intro hmem
        rcases List.mem_cons.mp hmem with rfl | hx
        · exact ⟨List.mem_cons_self x ys, hy⟩
        · obtain ⟨hx', hc⟩ := (ih (seen ++ [y]) x).mp hx
          refine ⟨List.mem_cons_of_mem y hx', fun hs => hc ?_⟩
          exact List.mem_append.mpr (Or.inl hs)
      · rintro ⟨hx, hc⟩
        rcases List.mem_cons.mp hx with rfl | hx'
        · exact List.mem_cons_self x _
        · by_cases hxy : x = y
          · subst hxy; exact List.mem_cons_self x _
          · refine List.mem_cons_of_mem y ((ih (seen ++ [y]) x).mpr ⟨hx', ?_⟩)
            intro hs
            rcases List.mem_append.mp hs with h1 | h1
            · exact hc h1
            · exact hxy (List.mem_singleton.mp h1)

/-- A first-seen deduplication is a sublist of its input: order is
preserved and nothing new is introduced. -/
theorem dedupFrom_sublist (l : List String) :
    ∀ seen, (dedupFrom seen l).Sublist l := by
  induction l with
  | nil => intro seen; simp [dedupFrom]
  | cons y ys ih =>
    intro seen
    by_cases h : y ∈ seen
    · rw [dedupFrom_cons_mem ys h]
      exact (ih seen).cons y
    · rw [dedupFrom_cons_not_mem ys h]
      exact (ih (seen ++ [y])).cons₂ y

/-- A first-seen deduplication contains no duplicates. -/
theorem dedupFrom_nodup (l : List String) :
    ∀ seen, (dedupFrom seen l).Nodup := by
  induction l with
  | nil => intro seen; simp [dedupFrom]
  | cons y ys ih =>
    intro seen
    by_cases h : y ∈ seen
    · rw [dedupFrom_cons_mem ys h]
      exact ih seen
    · rw [dedupFrom_cons_not_mem ys h]
      refine List.nodup_cons.mpr ⟨fun hmem => ?_, ih (seen ++ [y])⟩
      have := (dedupFrom_mem ys (seen ++ [y]) y).mp hmem
      exact this.2 (by simp)

/-- Claim C5: for every parsed instance list, host discovery returns
exactly the addresses marked "public" (first-seen deduplicated, order
preserved — stated via the spec-side `firstSeenDedup ∘ publicAddresses`
and its no-duplicate / sublist-of-input / same-members properties), and a
list with zero public addresses fails with `NoHostsFound` instead of
returning an empty collection. -/
theorem host_discovery_public_dedup (tag : String) (ap : Appliance)
    (w : World) (droplets : List Droplet)
    (h : ap.droplets = .ok droplets) :
    collect_droplet_ips tag ap w =
      (if firstSeenDedup (publicAddresses droplets) = []
       then .error (.noHostsFound tag)
       else .ok (firstSeenDedup (publicAddresses droplets)),
       w.addEvent .dropletList)
    ∧ (firstSeenDedup (publicAddresses droplets)).Nodup
    ∧ (firstSeenDedup (publicAddresses droplets)).Sublist
        (publicAddresses droplets)
    ∧ (∀ x, x ∈ firstSeenDedup (publicAddresses droplets) ↔
        x ∈ publicAddresses droplets) := by
  refine ⟨?_, dedupFrom_nodup _ [], dedupFrom_sublist _ [], fun x => by
    simpa using dedupFrom_mem (publicAddresses droplets) [] x⟩
  simp only [collect_droplet_ips, h, iterPublicIpv4_eq]
  by_cases he : firstSeenDedup (publicAddresses droplets) = []
  · simp [he]
  · simp [he]

/-- Witness for C5: on a fixture with a duplicated public address, a
private address, and a second public address, discovery returns the two
public addresses in first-seen order; on a list whose only addresses are
private, it fails with `NoHostsFound`. -/
theorem host_discovery_public_dedup_witness :
    collect_droplet_ips "tag" { droplets := .ok dropletsFixture }
        (World.start none) =
      (.ok ["203.0.113.10", "203.0.113.11"],
       (World.start none).addEvent .dropletList)
    ∧ collect_droplet_ips "tag"
        { droplets := .ok [ { v4 :=
            [ { type := some "private", ip_address := some "10.0.0.5" } ] } ] }
        (World.start none) =
      (.error (.noHostsFound "tag"),
       (World.start none).addEvent .dropletList) := by
  constructor
  · have h := (host_discovery_public_dedup "tag"
      { droplets := .ok dropletsFixture } (World.start none)
      dropletsFixture rfl).1
    rw [h]
    rfl
  · have h := (host_discovery_public_dedup "tag"
      { droplets := .ok [ { v4 :=
          [ { type := some "private", ip_address := some "10.0.0.5" } ] } ] }
      (World.start none)
      [ { v4 := [ { type := some "private",
                    ip_address := some "10.0.0.5" } ] } ] rfl).1
    rw [h]
    rfl

/-- Counterexample for C2: the claim requires the initialization step to
fail (`InitializationIncomplete`) unless the response carries a
*non-empty* list of key shares and a *non-empty* root credential, but
`initialise_vault` only checks `isinstance(unseal_keys, list)` and
`root_token is None`: a response with an empty share list and an empty
root token is accepted. -/
theorem initialise_vault_accepts_empty_material :
    (initialise_vault cfgFixture
        { init := .ok { unseal_keys_b64 := some (.isList []),
                        root_token := some "" } }
        (World.start none)).1 =
      .ok { unseal_keys := [], root_token := some "" } := rfl

/-- Claim C2 (amended): the initialization step succeeds exactly when the
response carries a JSON list (possibly empty) under `unseal_keys_b64`
together with a present (possibly empty) `root_token`; any other decoded
response fails with `InitializationIncomplete`.  The share count and
threshold of the issued `operator init` call come from the config. -/
theorem initialise_vault_field_requirements (config : VaultBootstrapConfig)
    (ap : Appliance) (w : World) (payload : InitPayload)
    (h : ap.init = .ok payload) :
    (∀ keys root_token, payload.unseal_keys_b64 = some (.isList keys) →
      payload.root_token = some root_token →
      (initialise_vault config ap w).1 =
        .ok { unseal_keys := keys, root_token := some root_token })
    ∧ (((∀ keys, payload.unseal_keys_b64 ≠ some (.isList keys)) ∨
        payload.root_token = none) →
      (initialise_vault config ap w).1 = .error .initIncomplete)
    ∧ (initialise_vault config ap w).2 =
        w.addEvent (.initCall config.key_shares config.key_threshold) := by
  refine ⟨?_, ?_, ?_⟩
  · intro keys root_token hk ht
    simp [initialise_vault, h, initStateFromPayload, hk, ht,
      VaultBootstrapState.fromInit]
  · intro hbad
    have hstep : initStateFromPayload payload = .error .initIncomplete := by
      cases hu : payload.unseal_keys_b64 with
      | none => cases hr : payload.root_token <;>
          simp [initStateFromPayload, hu, hr]
      | some kf =>
        cases kf with
        | notList => cases hr : payload.root_token <;>
            simp [initStateFromPayload, hu, hr]
        | isList keys =>
          cases hr : payload.root_token with
          | none => simp [initStateFromPayload, hu, hr]
          | some tok =>
            rcases hbad with hk | ht
            · exact absurd hu (hk keys)
            · rw [hr] at ht; simp at ht
    simp [initialise_vault, h, hstep]
  · simp [initialise_vault, h]

/-- Witness for the amended C2: a well-formed init response is accepted
with its material recorded, and a response whose `unseal_keys_b64` is not
a list fails with `InitializationIncomplete`. -/
theorem initialise_vault_field_requirements_witness :
    (initialise_vault cfgFixture
        { init := .ok { unseal_keys_b64 := some (.isList ["k1", "k2"]),
                        root_token := some "root" } }
        (World.start none)).1 =
      .ok { unseal_keys := ["k1", "k2"], root_token := some "root" }
    ∧ (initialise_vault cfgFixture
        { init := .ok { unseal_keys_b64 := some .notList,
                        root_token := some "root" } }
        (World.start none)).1 = .error .initIncomplete := by
  constructor
  · exact (initialise_vault_field_requirements cfgFixture
      { init := .ok { unseal_keys_b64 := some (.isList ["k1", "k2"]),
                      root_token := some "root" } }
      (World.start none) _ rfl).1 ["k1", "k2"] "root" rfl rfl
  · exact (initialise_vault_field_requirements cfgFixture
      { init := .ok { unseal_keys_b64 := some .notList,
                      root_token := some "root" } }
      (World.start none) _ rfl).2.1 (Or.inl (fun keys hk => by cases hk))

/-- Counterexample for C9: not every command invocation enforces a
timeout.  `CommandContext.timeout` defaults to `None`, and the status
query issued by `fetch_vault_status` — built with
`CommandContext(env=env)` — reaches the process layer with no timeout at
all. -/
theorem status_query_has_no_timeout :
    enforcesTimeout (fetch_vault_status_invocation []) = false := rfl

/-- Claim C9 (amended): `run_command` forwards the caller's *optional*
timeout to the process layer unchanged — no timeout is enforced by
default (`CommandContext()` and an absent context both carry `None`), and
only the SSH health probe sets one (30 seconds).  A process failure is
surfaced as a `CommandFailed`-style `VaultBootstrapError` carrying the
command name and the stripped stderr, distinct from a successful run's
stdout. -/
theorem run_command_timeout_forwarding :
    (∀ command args ctx,
      (runInvocation command args (some ctx)).timeout = ctx.timeout)
    ∧ (∀ command args, (runInvocation command args none).timeout = none)
    ∧ (∀ ssh_args, (probe_vault_service_invocation ssh_args).timeout = some 30)
    ∧ (∀ command args ctx proc stdout,
        proc (runInvocation command args ctx) = .success stdout →
        run_command command args ctx proc = .ok stdout)
    ∧ (∀ command args ctx proc stderr,
        proc (runInvocation command args ctx) = .failure stderr →
        run_command command args ctx proc =
          .error (.commandFailed command (pyStrip stderr))) := by
  refine ⟨fun _ _ _ => rfl, fun _ _ => rfl, fun _ => rfl, ?_, ?_⟩
  · intro command args ctx proc stdout hp
    simp [run_command, hp]
  · intro command args ctx proc stderr hp
    simp [run_command, hp]

/-- Witness for the amended C9: a concrete failing `vault status` call
(no timeout in its context) surfaces the stripped stderr as
`CommandFailed`, and the SSH probe's context carries the 30-second
timeout. -/
theorem run_command_timeout_forwarding_witness :
    run_command "vault" ["status", "-format=json"]
        (some { env := some [] }) (fun _ => .failure " boom \n") =
      .error (.commandFailed "vault" "boom")
    ∧ (probe_vault_service_invocation ["root@203.0.113.10"]).timeout =
        some 30 := by
  constructor
  · have h := run_command_timeout_forwarding.2.2.2.2 "vault"
      ["status", "-format=json"] (some { env := some [] })
      (fun _ => .failure " boom \n") " boom \n" rfl
    rw [h]
    rfl
  · exact run_command_timeout_forwarding.2.2.1 ["root@203.0.113.10"]

/-- A successfully resolved Shamir configuration satisfies the threshold
invariant: the comparison in `_resolve_shamir_config` is the only gate in
front of `ok`. -/
theorem resolve_shamir_config_le (vault_init : VaultInitConfig)
    (env : List (String × String)) (sc : ShamirConfig)
    (h : _resolve_shamir_config vault_init env = .ok sc) :
    sc.key_threshold ≤ sc.key_shares := by
  unfold _resolve_shamir_config at h
  cases h1 : resolve_input vault_init.key_shares keySharesResolution env with
  | error e => rw [h1] at h; simp [Bind.bind, Except.bind] at h
  | ok raw_s =>
  rw [h1] at h
  simp only [Bind.bind, Except.bind] at h
  cases h2 : pyIntOrExit "KEY_SHARES" raw_s with
  | error e => rw [h2] at h; simp at h
  | ok s =>
  rw [h2] at h
  simp only [Except.bind] at h
  cases h3 : resolve_input vault_init.key_threshold keyThresholdResolution env with
  | error e => rw [h3] at h; simp at h
  | ok raw_t =>
  rw [h3] at h
  simp only [Except.bind] at h
  cases h4 : pyIntOrExit "KEY_THRESHOLD" raw_t with
  | error e => rw [h4] at h; simp at h
  | ok t =>
  rw [h4] at h
  simp only [Except.bind] at h
  by_cases h5 : t > s
  · simp [Bind.bind, Except.bind, h5] at h
  · obtain ⟨ss, st⟩ := sc
    simp [Bind.bind, Except.bind, h5, ShamirConfig.mk.injEq] at h
    obtain ⟨rfl, rfl⟩ := h
    exact le_of_not_lt h5

/-- Every configuration `build_config` actually produces takes its Shamir
parameters from a successfully resolved `ShamirConfig`. -/
theorem build_config_shamir_source (inputs : BootstrapInputs)
    (env : List (String × String)) (config : VaultBootstrapConfig)
    (h : build_config inputs env = .ok config) :
    ∃ sc, _resolve_shamir_config inputs.vault_init env = .ok sc ∧
      config.key_shares = sc.key_shares ∧
      config.key_threshold = sc.key_threshold := by
  unfold build_config at h
  cases hc : _resolve_core_config inputs.connection env with
  | error e => rw [hc] at h; simp [Bind.bind, Except.bind] at h
  | ok core =>
  rw [hc] at h
  simp only [Bind.bind, Except.bind] at h
  cases hs : _resolve_ssh_config inputs.ssh env with
  | error e => rw [hs] at h; simp at h
  | ok ssh_cfg =>
  rw [hs] at h
  simp only [Except.bind] at h
  cases ha : _resolve_approle_config inputs.approle core.state_file env with
  | error e => rw [ha] at h; simp at h
  | ok approle_cfg =>
  rw [ha] at h
  simp only [Except.bind] at h
  cases hsh : _resolve_shamir_config inputs.vault_init env with
  | error e => rw [hsh] at h; simp at h
  | ok shamir_cfg =>
  rw [hsh] at h
  simp only [Except.bind] at h
  cases ht : _resolve_ttl_config inputs.approle env with
  | error e => rw [ht] at h; simp at h
  | ok ttl_cfg =>
  rw [ht] at h
  simp only [Except.bind, Except.ok.injEq] at h
  exact ⟨shamir_cfg, rfl, by rw [← h], by rw [← h]⟩

/-- Claim C1: a configuration whose `key_threshold` exceeds `key_shares`
fails validation while it is being constructed, before any external
command is invoked: (1) whenever the resolved threshold exceeds the
resolved share count, `_resolve_shamir_config` fails with
`_KEY_THRESHOLD_ERROR`; (2) consequently every configuration
`build_config` produces satisfies `key_threshold ≤ key_shares`; and
(3) when `build_config` fails, the program's run issues no external
command at all (`bootstrap` is never entered, the trace stays empty). -/
theorem config_threshold_validated_before_commands :
    (∀ (vault_init : VaultInitConfig) (env : List (String × String))
        (raw_s raw_t : Option RawValue) (shares threshold : Int),
      resolve_input vault_init.key_shares keySharesResolution env = .ok raw_s →
      pyIntOrExit "KEY_SHARES" raw_s = .ok shares →
      resolve_input vault_init.key_threshold keyThresholdResolution env =
        .ok raw_t →
      pyIntOrExit "KEY_THRESHOLD" raw_t = .ok threshold →
      threshold > shares →
      _resolve_shamir_config vault_init env =
        .error (.systemExit keyThresholdError))
    ∧ (∀ inputs env config, build_config inputs env = .ok config →
        config.key_threshold ≤ config.key_shares)
    ∧ (∀ inputs env ap d0 e, build_config inputs env = .error e →
        runMain inputs env ap d0 = (.error e, World.start d0) ∧
          (runMain inputs env ap d0).2.trace = []) := by
  refine ⟨?_, ?_, ?_⟩
  · intro vault_init env raw_s raw_t shares threshold h1 h2 h3 h4 h5
    simp [_resolve_shamir_config, h1, h2, h3, h4, h5, Bind.bind, Except.bind]
  · intro inputs env config h
    obtain ⟨sc, hsc, hks, hkt⟩ := build_config_shamir_source inputs env config h
    rw [hks, hkt]
    exact resolve_shamir_config_le inputs.vault_init env sc hsc
  · intro inputs env ap d0 e h
    constructor
    · simp [runMain, h]
    · simp [runMain, h, World.start]

/-- Witness for C1: CLI values `key_shares=5, key_threshold=7` are
rejected with `_KEY_THRESHOLD_ERROR`; a fixture input set resolves to the
default configuration, whose threshold respects the invariant; and an
input set missing its required `STATE_FILE` fails before any external
command (empty trace). -/
theorem config_threshold_validated_before_commands_witness :
    _resolve_shamir_config
        { key_shares := some (.intVal 5), key_threshold := some (.intVal 7) }
        [] = .error (.systemExit keyThresholdError)
    ∧ cfgFixture.key_threshold ≤ cfgFixture.key_shares
    ∧ runMain {} [] {} none =
        (.error (.systemExit "STATE_FILE is required"), World.start none)
    ∧ (runMain {} [] {} none).2.trace = [] := by
  refine ⟨?_, ?_, ?_, ?_⟩
  · exact config_threshold_validated_before_commands.1
      { key_shares := some (.intVal 5), key_threshold := some (.intVal 7) }
      [] (some (.intVal 5)) (some (.intVal 7)) 5 7 rfl rfl rfl rfl (by norm_num)
  · exact config_threshold_validated_before_commands.2.1
      { connection := { vault_addr := some (.str "https://vault"),
                        droplet_tag := some (.str "tag"),
                        state_file := some (.path "state.json") } }
      [] cfgFixture rfl
  · exact (config_threshold_validated_before_commands.2.2 {} [] {} none
      (.systemExit "STATE_FILE is required") rfl).1
  · exact (config_threshold_validated_before_commands.2.2 {} [] {} none
      (.systemExit "STATE_FILE is required") rfl).2

/-- The unseal loop, when the oracle first reports `sealed == false` at
(0-based) call offset `i`: it succeeds after exactly `i + 1` calls,
applying exactly the first `i + 1` shares in list order, and issues
nothing afterwards. -/
theorem unsealLoop_stops_at_first_unsealed (ap : Appliance) :
    ∀ (keys : List String) (w : World) (i : Nat),
      i < keys.length →
      (∀ j, j < i → reportsSealed ap (w.unsealCalls + j)) →
      reportsUnsealed ap (w.unsealCalls + i) →
      unsealLoop ap keys w =
        (.ok (),
         { w with
             trace := w.trace ++ (keys.take (i + 1)).map VaultEvent.unsealCall,
             unsealCalls := w.unsealCalls + (i + 1) }) := by
  intro keys
  induction keys with
  | nil => intro w i hi _ _; simp at hi
  | cons key rest ih =>
    intro w i hi hsealed hunsealed
    cases i with
    | zero =>
      obtain ⟨p, hp, hsf⟩ := hunsealed
      simp only [Nat.add_zero] at hp
      simp [unsealLoop, hp, hsf]
    | succ m =>
      obtain ⟨p, hp, hst⟩ := hsealed 0 (Nat.succ_pos m)
      simp only [Nat.add_zero] at hp
      have hrec := ih
        { w with trace := w.trace ++ [.unsealCall key],
                 unsealCalls := w.unsealCalls + 1 } m
        (by simpa using Nat.lt_of_succ_lt_succ hi)
        (fun j hj => by
          have hidx : w.unsealCalls + 1 + j = w.unsealCalls + (j + 1) := by
            omega
          simpa [hidx] using hsealed (j + 1) (Nat.succ_lt_succ hj))
        (by
          have hidx : w.unsealCalls + 1 + m = w.unsealCalls + (m + 1) := by
            omega
          simpa [hidx] using hunsealed)
      simp only [unsealLoop, hp, hst, if_pos, hrec]
      refine congrArg _ ?_
      simp [List.append_assoc]
      omega

/-- The unseal loop when every remaining call still reports sealed:
every share is applied (one call per share, in order) and the loop fails
with `UnsealExhausted`. -/
theorem unsealLoop_exhausts (ap : Appliance) :
    ∀ (keys : List String) (w : World),
      (∀ j, j < keys.length → reportsSealed ap (w.unsealCalls + j)) →
      unsealLoop ap keys w =
        (.error .unsealExhausted,
         { w with trace := w.trace ++ keys.map VaultEvent.unsealCall,
                  unsealCalls := w.unsealCalls + keys.length }) := by
  intro keys
  induction keys with
  | nil => intro w _; simp [unsealLoop]
  | cons key rest ih =>
    intro w hsealed
    obtain ⟨p, hp, hst⟩ := hsealed 0 (Nat.succ_pos rest.length)
    simp only [Nat.add_zero] at hp
    have hrec := ih
      { w with trace := w.trace ++ [.unsealCall key],
               unsealCalls := w.unsealCalls + 1 }
      (fun j hj => by
        have hidx : w.unsealCalls + 1 + j = w.unsealCalls + (j + 1) := by
          omega
        simpa [hidx] using hsealed (j + 1) (Nat.succ_lt_succ hj))
    simp only [unsealLoop, hp, hst, if_pos, hrec]
    refine congrArg _ ?_
    simp [List.append_assoc]
    omega

/-- Claim C3: `unseal_vault` applies the recorded shares one at a time in
list order; if the endpoint first reports `sealed == false` on the
`i`-th call (0-based), exactly `i + 1` unseal calls are issued — the
shares beyond position `i` are never applied — and if every share is
applied without the endpoint reporting unsealed, it fails with
`UnsealExhausted` after exactly one call per share. -/
theorem unseal_applies_shares_in_order (ap : Appliance)
    (state : VaultBootstrapState) (w : World) :
    (∀ i, i < state.unseal_keys.length →
      (∀ j, j < i → reportsSealed ap (w.unsealCalls + j)) →
      reportsUnsealed ap (w.unsealCalls + i) →
      unseal_vault ap state w =
        (.ok (),
         { w with
             trace := w.trace ++
               (state.unseal_keys.take (i + 1)).map VaultEvent.unsealCall,
             unsealCalls := w.unsealCalls + (i + 1) }))
    ∧ (state.unseal_keys ≠ [] →
      (∀ j, j < state.unseal_keys.length →
        reportsSealed ap (w.unsealCalls + j)) →
      unseal_vault ap state w =
        (.error .unsealExhausted,
         { w with
             trace := w.trace ++ state.unseal_keys.map VaultEvent.unsealCall,
             unsealCalls := w.unsealCalls + state.unseal_keys.length })) := by
  constructor
  · intro i hi hsealed hunsealed
    have hne : state.unseal_keys ≠ [] :=
      List.ne_nil_of_length_pos (Nat.lt_of_le_of_lt (Nat.zero_le i) hi)
    rw [unseal_vault, if_neg (by simpa using hne)]
    exact unsealLoop_stops_at_first_unsealed ap state.unseal_keys w i hi
      hsealed hunsealed
  · intro hne hsealed
    rw [unseal_vault, if_neg (by simpa using hne)]
    exact unsealLoop_exhausts ap state.unseal_keys w hsealed

/-- Witness for C3: with four recorded shares and a stub endpoint that
reports `sealed == false` only on the 3rd call, exactly 3 unseal calls
are made (the 4th share is never applied); with a stub that always
reports sealed, both shares of a 2-share state are applied and the run
fails with `UnsealExhausted`. -/
theorem unseal_applies_shares_in_order_witness :
    unseal_vault { unsealAt := fun j => .ok { sealed := some (decide (j < 2)) } }
        { unseal_keys := ["k1", "k2", "k3", "k4"] } (World.start none) =
      (.ok (),
       { World.start none with
           trace := [.unsealCall "k1", .unsealCall "k2", .unsealCall "k3"],
           unsealCalls := 3 })
    ∧ unseal_vault { unsealAt := fun _ => .ok { sealed := some true } }
        { unseal_keys := ["k1", "k2"] } (World.start none) =
      (.error .unsealExhausted,
       { World.start none with
           trace := [.unsealCall "k1", .unsealCall "k2"],
           unsealCalls := 2 }) := by
  constructor
  · have h := (unseal_applies_shares_in_order
      { unsealAt := fun j => .ok { sealed := some (decide (j < 2)) } }
      { unseal_keys := ["k1", "k2", "k3", "k4"] } (World.start none)).1 2
      (by norm_num)
      (fun j hj => ⟨_, rfl, by simp [World.start]; omega⟩)
      ⟨_, rfl, by simp [World.start]⟩
    simpa using h
  · have h := (unseal_applies_shares_in_order
      { unsealAt := fun _ => .ok { sealed := some true } }
      { unseal_keys := ["k1", "k2"] } (World.start none)).2
      (by simp)
      (fun j _ => ⟨_, rfl, by simp⟩)
    simpa using h

/-- Claim C6: when the configured KV path is present among the mounts but
is not a `kv` engine or not version `"2"`, `ensure_kv_engine` fails with
a `MountConflict` error and issues no mount-mutating `secrets enable`
call (the only external call of the run is the `secrets list` query);
when the path is absent, exactly one `secrets enable` call for a
versioned KV mount at that path is issued. -/
theorem ensure_kv_mount_conflict (config : VaultBootstrapConfig)
    (ap : Appliance) (w : World) (mounts : List (String × MountInfo))
    (h : ap.secretsList = .ok mounts) :
    (∀ existing,
      mounts.lookup (rstripSlashes config.kv_mount_path ++ "/") =
        some existing →
      existing.type ≠ some "kv" ∨
        (existing.options.getD {}).version ≠ some "2" →
      ∃ e, ensure_kv_engine config ap w =
          (.error e, w.addEvent .secretsListQuery) ∧
        e.isMountConflict = true)
    ∧ (mounts.lookup (rstripSlashes config.kv_mount_path ++ "/") = none →
      ensure_kv_engine config ap w =
        (ap.secretsEnable,
         (w.addEvent .secretsListQuery).addEvent
           (.secretsEnable config.kv_mount_path))) := by
  constructor
  · intro existing hlook hbad
    by_cases htype : existing.type = some "kv"
    · have hver : (existing.options.getD {}).version ≠ some "2" := by
        rcases hbad with h1 | h1
        · exact absurd htype h1
        · exact h1
      refine ⟨.mountNotV2 (rstripSlashes config.kv_mount_path ++ "/"), ?_, rfl⟩
      simp [ensure_kv_engine, h, hlook, _validate_kv_mount, htype, hver]
    · refine ⟨.mountNotKv (rstripSlashes config.kv_mount_path ++ "/"), ?_, rfl⟩
      simp [ensure_kv_engine, h, hlook, _validate_kv_mount, htype]
  · intro hlook
    simp [ensure_kv_engine, h, hlook]

/-- Witness for C6: an existing mount of type `"generic"` at `secret/`
yields a `MountConflict` with only the listing query issued, and an
empty mount table yields exactly one `secrets enable` call. -/
theorem ensure_kv_mount_conflict_witness :
    (∃ e, ensure_kv_engine cfgFixture
        { secretsList := .ok [("secret/", { type := some "generic" })] }
        (World.start none) =
        (.error e, (World.start none).addEvent .secretsListQuery) ∧
      e.isMountConflict = true)
    ∧ ensure_kv_engine cfgFixture { secretsList := .ok [] }
        (World.start none) =
      (.ok (),
       ((World.start none).addEvent .secretsListQuery).addEvent
         (.secretsEnable "secret")) := by
  constructor
  · exact (ensure_kv_mount_conflict cfgFixture
      { secretsList := .ok [("secret/", { type := some "generic" })] }
      (World.start none) [("secret/", { type := some "generic" })] rfl).1
      { type := some "generic" } rfl (Or.inl (by simp))
  · exact (ensure_kv_mount_conflict cfgFixture { secretsList := .ok [] }
      (World.start none) [] rfl).2 rfl

/-- The helper `_ensure_approle_auth_enabled` issues no secret-rotation call. -/
theorem auth_enabled_rotation_count (ap : Appliance) (w : World) :
    ((_ensure_approle_auth_enabled ap w).2).trace.countP VaultEvent.isRotation =
      w.trace.countP VaultEvent.isRotation := by
  unfold _ensure_approle_auth_enabled
  cases ap.authList with
  | error e =>
    simp [World.addEvent, List.countP_append, List.countP_cons,
      VaultEvent.isRotation]
  | ok mounts =>
    by_cases hcm : "approle/" ∈ mounts
    · simp [hcm, World.addEvent, List.countP_append, List.countP_cons,
        VaultEvent.isRotation]
    · simp [hcm, World.addEvent, List.countP_append, List.countP_cons,
        VaultEvent.isRotation]

/-- The helper `_write_approle_policy` issues no secret-rotation call. -/
theorem write_policy_rotation_count (config : VaultBootstrapConfig)
    (ap : Appliance) (w : World) :
    ((_write_approle_policy config ap w).2).trace.countP VaultEvent.isRotation =
      w.trace.countP VaultEvent.isRotation := by
  unfold _write_approle_policy
  simp [World.addEvent, List.countP_append, List.countP_cons,
    VaultEvent.isRotation]

/-- The helper `_configure_approle_role` issues no secret-rotation call. -/
theorem configure_role_rotation_count (config : VaultBootstrapConfig)
    (ap : Appliance) (w : World) :
    ((_configure_approle_role config ap w).2).trace.countP
        VaultEvent.isRotation =
      w.trace.countP VaultEvent.isRotation := by
  unfold _configure_approle_role
  simp [World.addEvent, List.countP_append, List.countP_cons,
    VaultEvent.isRotation]

/-- The helper `_fetch_role_id` issues no secret-rotation call. -/
theorem fetch_role_id_rotation_count (config : VaultBootstrapConfig)
    (ap : Appliance) (w : World) :
    ((_fetch_role_id config ap w).2).trace.countP VaultEvent.isRotation =
      w.trace.countP VaultEvent.isRotation := by
  unfold _fetch_role_id
  cases ap.roleId with
  | error e =>
    simp [World.addEvent, List.countP_append, List.countP_cons,
      VaultEvent.isRotation]
  | ok stdout =>
    simp [World.addEvent, List.countP_append, List.countP_cons,
      VaultEvent.isRotation]

/-- The helper `_generate_secret_id` issues exactly one secret-rotation call. -/
theorem generate_secret_id_rotation_count (config : VaultBootstrapConfig)
    (ap : Appliance) (w : World) :
    ((_generate_secret_id config ap w).2).trace.countP VaultEvent.isRotation =
      w.trace.countP VaultEvent.isRotation + 1 := by
  unfold _generate_secret_id
  cases ap.secretId with
  | error e =>
    simp [World.addEvent, List.countP_append, List.countP_cons,
      VaultEvent.isRotation]
  | ok payload =>
    cases hsid : (payload.data.getD {}).secret_id with
    | none =>
      simp [hsid, World.addEvent, List.countP_append, List.countP_cons,
        VaultEvent.isRotation]
    | some sid =>
      simp [hsid, World.addEvent, List.countP_append, List.countP_cons,
        VaultEvent.isRotation]

/-- Claim C4: in a completed `ensure_approle` run, a secret-rotation
call (`secret-id` write) is issued exactly when the configuration's
`rotate_secret_id` flag is set or no role secret is recorded in the
state (recorded = a non-`None`, non-empty value, matching the source's
truthiness test); and when the flag is unset and a secret is recorded,
the role secret after the run equals the role secret before it. -/
theorem identity_rotation_conditional (config : VaultBootstrapConfig)
    (ap : Appliance) (state : VaultBootstrapState) (w : World)
    (state' : VaultBootstrapState) (w' : World)
    (h : ensure_approle config ap state w = (.ok state', w')) :
    (w'.trace.countP VaultEvent.isRotation =
      w.trace.countP VaultEvent.isRotation +
        (if config.rotate_secret_id || !(pyTruthy state.approle_secret_id)
         then 1 else 0))
    ∧ (config.rotate_secret_id = false →
        pyTruthy state.approle_secret_id = true →
        state'.approle_secret_id = state.approle_secret_id) := by
  unfold ensure_approle at h
  rcases hA : _ensure_approle_auth_enabled ap w with ⟨r1, w1⟩
  rw [hA] at h
  have c1 : w1.trace.countP VaultEvent.isRotation =
      w.trace.countP VaultEvent.isRotation := by
    have := auth_enabled_rotation_count ap w
    rwa [hA] at this
  cases r1 with
  | error e => simp at h
  | ok u1 =>
  dsimp only at h
  rcases hB : _write_approle_policy config ap w1 with ⟨r2, w2⟩
  rw [hB] at h
  have c2 : w2.trace.countP VaultEvent.isRotation =
      w1.trace.countP VaultEvent.isRotation := by
    have := write_policy_rotation_count config ap w1
    rwa [hB] at this
  cases r2 with
  | error e => simp at h
  | ok u2 =>
  dsimp only at h
  rcases hC : _configure_approle_role config ap w2 with ⟨r3, w3⟩
  rw [hC] at h
  have c3 : w3.trace.countP VaultEvent.isRotation =
      w2.trace.countP VaultEvent.isRotation := by
    have := configure_role_rotation_count config ap w2
    rwa [hC] at this
  cases r3 with
  | error e => simp at h
  | ok u3 =>
  dsimp only at h
  rcases hD : _fetch_role_id config ap w3 with ⟨r4, w4⟩
  rw [hD] at h
  have c4 : w4.trace.countP VaultEvent.isRotation =
      w3.trace.countP VaultEvent.isRotation := by
    have := fetch_role_id_rotation_count config ap w3
    rwa [hD] at this
  cases r4 with
  | error e => simp at h
  | ok role_id =>
  dsimp only at h
  by_cases hrot :
      (config.rotate_secret_id ||
        !(pyTruthy state.approle_secret_id)) = true
  · rw [if_pos hrot] at h
    rcases hE : _generate_secret_id config ap w4 with ⟨r5, w5⟩
    rw [hE] at h
    have c5 : w5.trace.countP VaultEvent.isRotation =
        w4.trace.countP VaultEvent.isRotation + 1 := by
      have := generate_secret_id_rotation_count config ap w4
      rwa [hE] at this
    cases r5 with
    | error e => simp at h
    | ok sid =>
      injection h with h1 h2
      injection h1 with h1
      subst h2
      constructor
      · rw [c5, c4, c3, c2, c1, if_pos hrot]
      · intro hflag htruthy
        rw [hflag, htruthy] at hrot
        simp at hrot
  · rw [if_neg hrot] at h
    injection h with h1 h2
    injection h1 with h1
    subst h2
    constructor
    · rw [c4, c3, c2, c1, if_neg hrot]
      simp
    · intro _ _
      rw [← h1]

/-- Witness for C4: a completed run with `rotate_secret_id = false` and a
recorded secret `"keep"` issues zero rotation calls and retains the
secret; the same run with the flag set issues exactly one rotation call. -/
theorem identity_rotation_conditional_witness :
    ([VaultEvent.authListQuery, VaultEvent.authEnable,
      VaultEvent.policyWrite "doks-deployer" (_default_policy cfgFixture),
      VaultEvent.roleWrite "doks-deployer",
      VaultEvent.roleIdRead "doks-deployer"].countP VaultEvent.isRotation = 0)
    ∧ (VaultBootstrapState.mk [] none (some "role-id")
        (some "keep")).approle_secret_id =
      (VaultBootstrapState.mk [] none none (some "keep")).approle_secret_id
    ∧ ([VaultEvent.authListQuery, VaultEvent.authEnable,
        VaultEvent.policyWrite "doks-deployer" (_default_policy cfgFixture),
        VaultEvent.roleWrite "doks-deployer",
        VaultEvent.roleIdRead "doks-deployer",
        VaultEvent.secretIdWrite "doks-deployer"].countP
          VaultEvent.isRotation = 1) := by
  have h1 := identity_rotation_conditional cfgFixture
    { authList := .ok [], roleId := .ok "role-id\n",
      secretId := .ok { data := some { secret_id := some "sid" } } }
    (VaultBootstrapState.mk [] none none (some "keep")) (World.start none)
    (VaultBootstrapState.mk [] none (some "role-id") (some "keep"))
    { trace := [VaultEvent.authListQuery, VaultEvent.authEnable,
        VaultEvent.policyWrite "doks-deployer" (_default_policy cfgFixture),
        VaultEvent.roleWrite "doks-deployer",
        VaultEvent.roleIdRead "doks-deployer"] } rfl
  have h2 := identity_rotation_conditional
    { cfgFixture with rotate_secret_id := true }
    { authList := .ok [], roleId := .ok "role-id\n",
      secretId := .ok { data := some { secret_id := some "sid" } } }
    (VaultBootstrapState.mk [] none none (some "keep")) (World.start none)
    (VaultBootstrapState.mk [] none (some "role-id") (some "sid"))
    { trace := [VaultEvent.authListQuery, VaultEvent.authEnable,
        VaultEvent.policyWrite "doks-deployer" (_default_policy cfgFixture),
        VaultEvent.roleWrite "doks-deployer",
        VaultEvent.roleIdRead "doks-deployer",
        VaultEvent.secretIdWrite "doks-deployer"] } rfl
  exact ⟨h1.1, h1.2 rfl rfl, h2.1⟩

/-- Claim C7: in every run of `_ensure_initialized` that performs
initialization (first status reports not initialized) and receives a
well-formed init response, the issued key shares and root credential are
written to the state file (`saveState` event, disk updated) strictly
before the follow-up status query is issued — the trace is exactly
status-query, init, save, status-query, regardless of how the follow-up
query turns out, and the disk afterwards holds the new material. -/
theorem init_persists_before_requery (config : VaultBootstrapConfig)
    (ap : Appliance) (state : VaultBootstrapState) (w : World)
    (s0 : StatusPayload) (payload : InitPayload) (keys : List String)
    (root_token : String)
    (h0 : ap.status w.statusCalls = .ok s0)
    (hinit : s0.initialized.getD false = false)
    (hp : ap.init = .ok payload)
    (hk : payload.unseal_keys_b64 = some (.isList keys))
    (ht : payload.root_token = some root_token) :
    (_ensure_initialized config ap state w).2.trace =
      w.trace ++
        [.statusQuery,
         .initCall config.key_shares config.key_threshold,
         .saveState config.state_file
           (VaultBootstrapState.fromInit keys root_token),
         .statusQuery]
    ∧ (_ensure_initialized config ap state w).2.disk =
        some (VaultBootstrapState.fromInit keys root_token) := by
  have key : initStateFromPayload payload =
      .ok (VaultBootstrapState.fromInit keys root_token) := by
    simp [initStateFromPayload, hk, ht]
  unfold _ensure_initialized
  simp only [fetch_vault_status, initialise_vault, save_state,
    World.addEvent, h0, hinit, hp, key]
  cases hs1 : ap.status (w.statusCalls + 1) with
  | error e => simp
  | ok refreshed => simp

/-- Witness for C7: a fresh appliance (first status not initialized) with
a one-share init response: the save of the new state happens strictly
between the init call and the follow-up status query, and the disk holds
the issued material. -/
theorem init_persists_before_requery_witness :
    (_ensure_initialized cfgFixture
        { status := fun n => if n == 0
            then .ok { initialized := some false, sealed := some true }
            else .ok { initialized := some true, sealed := some true },
          init := .ok { unseal_keys_b64 := some (.isList ["k1"]),
                        root_token := some "root" } }
        VaultBootstrapState.emptyState (World.start none)).2.trace =
      [.statusQuery, .initCall 5 3,
       .saveState "state.json"
         { unseal_keys := ["k1"], root_token := some "root" },
       .statusQuery]
    ∧ (_ensure_initialized cfgFixture
        { status := fun n => if n == 0
            then .ok { initialized := some false, sealed := some true }
            else .ok { initialized := some true, sealed := some true },
          init := .ok { unseal_keys_b64 := some (.isList ["k1"]),
                        root_token := some "root" } }
        VaultBootstrapState.emptyState (World.start none)).2.disk =
      some { unseal_keys := ["k1"], root_token := some "root" } := by
  have h := init_persists_before_requery cfgFixture
    { status := fun n => if n == 0
        then .ok { initialized := some false, sealed := some true }
        else .ok { initialized := some true, sealed := some true },
      init := .ok { unseal_keys_b64 := some (.isList ["k1"]),
                    root_token := some "root" } }
    VaultBootstrapState.emptyState (World.start none)
    { initialized := some false, sealed := some true }
    { unseal_keys_b64 := some (.isList ["k1"]), root_token := some "root" }
    ["k1"] "root" rfl rfl rfl rfl rfl
  exact ⟨h.1, h.2⟩

/-- The SSH probe loop only appends `sshProbe` events. -/
theorem probeAttempts_countP (p : VaultEvent → Bool)
    (hp : ∀ a, p (.sshProbe a) = false) (ap : Appliance) (address : String) :
    ∀ (n : Nat) (last : Option VaultBootstrapError) (w : World),
      ((probeAttempts ap address n last w).2).trace.countP p =
        w.trace.countP p := by
  intro n
  induction n with
  | zero => intro last w; simp [probeAttempts]
  | succ m ih =>
    intro last w
    simp only [probeAttempts]
    cases ap.ssh w.sshCalls with
    | error e =>
      rw [ih]
      simp [List.countP_append, List.countP_cons, hp]
    | ok stdout =>
      cases hout : (pyStrip stdout == "active") with
      | true =>
        simp [hout, List.countP_append, List.countP_cons, hp]
      | false =>
        simp only [hout, Bool.false_eq_true, if_false]
        rw [ih]
        simp [List.countP_append, List.countP_cons, hp]

/-- The health verification only appends `sshProbe` events. -/
theorem verify_countP (p : VaultEvent → Bool)
    (hp : ∀ a, p (.sshProbe a) = false) (ap : Appliance) :
    ∀ (addresses : List String) (w : World),
      ((verify_vault_service addresses ap w).2).trace.countP p =
        w.trace.countP p := by
  intro addresses
  induction addresses with
  | nil => intro w; simp [verify_vault_service]
  | cons a rest ih =>
    intro w
    simp only [verify_vault_service]
    rcases hP : _probe_vault_service ap a w with ⟨r, w1⟩
    have hc : w1.trace.countP p = w.trace.countP p := by
      have hl := probeAttempts_countP p hp ap a 3 none w
      unfold _probe_vault_service at hP
      rw [hP] at hl
      exact hl
    cases r with
    | error e => dsimp only; exact hc
    | ok u => dsimp only; rw [ih w1, hc]

/-- Host discovery and verification only append `dropletList` and
`sshProbe` events. -/
theorem discover_countP (p : VaultEvent → Bool)
    (hd : p .dropletList = false) (hp : ∀ a, p (.sshProbe a) = false)
    (config : VaultBootstrapConfig) (ap : Appliance) (w : World) :
    ((_discover_and_verify config ap w).2).trace.countP p =
      w.trace.countP p := by
  unfold _discover_and_verify collect_droplet_ips
  cases ap.droplets with
  | error e =>
    simp [World.addEvent, List.countP_append, List.countP_cons, hd]
  | ok ds =>
    cases hie : (iterPublicIpv4 ds).isEmpty with
    | true =>
      simp [hie, World.addEvent, List.countP_append, List.countP_cons, hd]
    | false =>
      simp only [hie, Bool.false_eq_true, if_false]
      rw [verify_countP p hp ap (iterPublicIpv4 ds) (w.addEvent .dropletList)]
      simp [World.addEvent, List.countP_append, List.countP_cons, hd]

/-- The phase `_ensure_initialized` only appends `statusQuery`, `initCall` and
`saveState` events. -/
theorem ensure_initialized_countP (p : VaultEvent → Bool)
    (hs : p .statusQuery = false) (hi : ∀ a b, p (.initCall a b) = false)
    (hsv : ∀ pa st, p (.saveState pa st) = false)
    (config : VaultBootstrapConfig) (ap : Appliance)
    (state : VaultBootstrapState) (w : World) :
    ((_ensure_initialized config ap state w).2).trace.countP p =
      w.trace.countP p := by
  dsimp only [_ensure_initialized, fetch_vault_status, initialise_vault,
    save_state, World.addEvent]
  cases ap.status w.statusCalls with
  | error e => simp [List.countP_append, List.countP_cons, hs]
  | ok s0 =>
    dsimp only
    cases hin : s0.initialized.getD false with
    | true => simp [hin, List.countP_append, List.countP_cons, hs]
    | false =>
      simp only [hin, Bool.false_eq_true, if_false]
      cases ap.init with
      | error e =>
        simp [List.countP_append, List.countP_cons, hs, hi]
      | ok payload =>
        dsimp only
        cases initStateFromPayload payload with
        | error e =>
          simp [List.countP_append, List.countP_cons, hs, hi]
        | ok newState =>
          dsimp only
          cases ap.status (w.statusCalls + 1) with
          | error e =>
            simp [List.countP_append, List.countP_cons, hs, hi, hsv]
          | ok refreshed =>
            simp [List.countP_append, List.countP_cons, hs, hi, hsv]

/-- The unseal loop only appends `unsealCall` events. -/
theorem unsealLoop_countP (p : VaultEvent → Bool)
    (hu : ∀ k, p (.unsealCall k) = false) (ap : Appliance) :
    ∀ (keys : List String) (w : World),
      ((unsealLoop ap keys w).2).trace.countP p = w.trace.countP p := by
  intro keys
  induction keys with
  | nil => intro w; simp [unsealLoop]
  | cons key rest ih =>
    intro w
    simp only [unsealLoop]
    cases ap.unsealAt w.unsealCalls with
    | error e => simp [List.countP_append, List.countP_cons, hu]
    | ok payload =>
      cases hsl : payload.sealed.getD true with
      | true =>
        simp only [hsl, if_true]
        rw [ih]
        simp [List.countP_append, List.countP_cons, hu]
      | false =>
        simp [hsl, List.countP_append, List.countP_cons, hu]

/-- The operation `unseal_vault` only appends `unsealCall` events. -/
theorem unseal_vault_countP (p : VaultEvent → Bool)
    (hu : ∀ k, p (.unsealCall k) = false) (ap : Appliance)
    (state : VaultBootstrapState) (w : World) :
    ((unseal_vault ap state w).2).trace.countP p = w.trace.countP p := by
  unfold unseal_vault
  cases hie : state.unseal_keys.isEmpty with
  | true => simp [hie]
  | false =>
    simp only [hie, Bool.false_eq_true, if_false]
    exact unsealLoop_countP p hu ap state.unseal_keys w

/-- The phase `_ensure_unsealed` only appends `unsealCall` and `statusQuery`
events. -/
theorem ensure_unsealed_countP (p : VaultEvent → Bool)
    (hs : p .statusQuery = false) (hu : ∀ k, p (.unsealCall k) = false)
    (ap : Appliance) (state : VaultBootstrapState) (status : StatusPayload)
    (w : World) :
    ((_ensure_unsealed ap state status w).2).trace.countP p =
      w.trace.countP p := by
  unfold _ensure_unsealed
  cases hsl : status.sealed.getD false with
  | false => simp [hsl]
  | true =>
    simp only [hsl, Bool.not_true, Bool.false_eq_true, if_false]
    cases hie : state.unseal_keys.isEmpty with
    | true => simp [hie]
    | false =>
      simp only [hie, Bool.false_eq_true, if_false]
      rcases hU : unseal_vault ap state w with ⟨r, w1⟩
      have hc : w1.trace.countP p = w.trace.countP p := by
        have hl := unseal_vault_countP p hu ap state w
        rw [hU] at hl
        exact hl
      cases r with
      | error e => exact hc
      | ok u =>
        dsimp only [fetch_vault_status]
        cases ap.status w1.statusCalls with
        | error e => simp [List.countP_append, List.countP_cons, hs, hc]
        | ok refreshed =>
          cases hsl2 : refreshed.sealed.getD false with
          | true =>
            simp [hsl2, List.countP_append, List.countP_cons, hs, hc]
          | false =>
            simp [hsl2, List.countP_append, List.countP_cons, hs, hc]

/-- The state produced by a successful `initStateFromPayload` always
carries a root token. -/
theorem initStateFromPayload_root (payload : InitPayload)
    (st : VaultBootstrapState) (h : initStateFromPayload payload = .ok st) :
    st.root_token ≠ none := by
  unfold initStateFromPayload at h
  cases hk : payload.unseal_keys_b64 with
  | none => rw [hk] at h; cases hr : payload.root_token <;>
      rw [hr] at h <;> simp at h
  | some kf =>
    cases kf with
    | notList => rw [hk] at h; cases hr : payload.root_token <;>
        rw [hr] at h <;> simp at h
    | isList keys =>
      rw [hk] at h
      cases hr : payload.root_token with
      | none => rw [hr] at h; simp at h
      | some tok =>
        rw [hr] at h
        simp only [Except.ok.injEq] at h
        rw [← h]
        simp [VaultBootstrapState.fromInit]

/-- When `_ensure_initialized` completes with a state that has no root
token, it took the already-initialized path: the state is returned
unchanged and the only event issued is the status query. -/
theorem ensure_initialized_skip (config : VaultBootstrapConfig)
    (ap : Appliance) (state : VaultBootstrapState) (w : World)
    (state' : VaultBootstrapState) (status : StatusPayload) (w' : World)
    (h : _ensure_initialized config ap state w = (.ok (state', status), w'))
    (hroot : state'.root_token = none) :
    state' = state ∧
      w' = { w with trace := w.trace ++ [.statusQuery],
                    statusCalls := w.statusCalls + 1 } := by
  dsimp only [_ensure_initialized, fetch_vault_status, initialise_vault,
    save_state, World.addEvent] at h
  cases h0 : ap.status w.statusCalls with
  | error e => rw [h0] at h; simp at h
  | ok s0 =>
    rw [h0] at h
    dsimp only at h
    cases hin : s0.initialized.getD false with
    | true =>
      rw [hin] at h
      simp only [if_true] at h
      injection h with h1 h2
      injection h1 with h1
      injection h1 with h1a h1b
      exact ⟨h1a.symm, h2.symm⟩
    | false =>
      rw [hin] at h
      simp only [Bool.false_eq_true, if_false] at h
      cases hp : ap.init with
      | error e => rw [hp] at h; simp at h
      | ok payload =>
        rw [hp] at h
        dsimp only at h
        cases hst : initStateFromPayload payload with
        | error e => rw [hst] at h; simp at h
        | ok newState =>
          rw [hst] at h
          dsimp only at h
          cases h1 : ap.status (w.statusCalls + 1) with
          | error e =>
            rw [h1] at h; simp at h
          | ok refreshed =>
            rw [h1] at h
            simp only [Except.ok.injEq, Prod.mk.injEq] at h
            obtain ⟨⟨hstate, _⟩, _⟩ := h
            rw [← hstate] at hroot
            exact absurd hroot (initStateFromPayload_root payload newState hst)

/-- A block of unseal calls counts one `isUnseal` event per share. -/
theorem countP_unseal_block_isUnseal (l : List String) :
    (l.map VaultEvent.unsealCall).countP VaultEvent.isUnseal = l.length := by
  induction l with
  | nil => simp
  | cons x xs ih => simp [List.countP_cons, VaultEvent.isUnseal, ih]

/-- A block of unseal calls contains no configure events. -/
theorem countP_unseal_block_isConfigure (l : List String) :
    (l.map VaultEvent.unsealCall).countP VaultEvent.isConfigure = 0 := by
  induction l with
  | nil => simp
  | cons x xs ih => simp [List.countP_cons, VaultEvent.isConfigure, ih]

/-- A block of unseal calls contains no save events. -/
theorem countP_unseal_block_isSave (l : List String) :
    (l.map VaultEvent.unsealCall).countP VaultEvent.isSave = 0 := by
  induction l with
  | nil => simp
  | cons x xs ih => simp [List.countP_cons, VaultEvent.isSave, ih]

/-- Claim C8: in every bootstrap run that reaches and performs the
unseal step (status sealed, shares available, the loop stops at the
first `sealed == false` reply), the engine re-queries status afterwards;
if that status still reports sealed, the run fails with
`PostUnsealStillSealed`: the final trace ends at that re-query — the
unseal is not retried (exactly `i + 1` unseal calls in the whole run)
and no later phase runs (zero secrets-engine or identity-provisioning
calls, and no state write beyond those already performed). -/
theorem post_unseal_still_sealed_aborts (config : VaultBootstrapConfig)
    (ap : Appliance) (d0 : Option VaultBootstrapState) (w1 : World)
    (state2 : VaultBootstrapState) (status : StatusPayload) (w2 : World)
    (i : Nat) (s1 : StatusPayload)
    (h1 : _discover_and_verify config ap (World.start d0) = (.ok (), w1))
    (h2 : _ensure_initialized config ap (load_state w1) w1 =
      (.ok (state2, status), w2))
    (h3 : status.sealed.getD false = true)
    (h5 : i < state2.unseal_keys.length)
    (h6 : ∀ j, j < i → reportsSealed ap (w2.unsealCalls + j))
    (h7 : reportsUnsealed ap (w2.unsealCalls + i))
    (h8 : ap.status w2.statusCalls = .ok s1)
    (h9 : s1.sealed.getD false = true) :
    bootstrap config ap d0 =
      (.error .postUnsealStillSealed,
       { w2 with
           trace := w2.trace ++
             (state2.unseal_keys.take (i + 1)).map VaultEvent.unsealCall ++
             [.statusQuery],
           unsealCalls := w2.unsealCalls + (i + 1),
           statusCalls := w2.statusCalls + 1 })
    ∧ (bootstrap config ap d0).2.trace.countP VaultEvent.isUnseal = i + 1
    ∧ (bootstrap config ap d0).2.trace.countP VaultEvent.isConfigure = 0
    ∧ (bootstrap config ap d0).2.trace.countP VaultEvent.isSave =
        w2.trace.countP VaultEvent.isSave := by
  have hne : state2.unseal_keys ≠ [] :=
    List.ne_nil_of_length_pos (Nat.lt_of_le_of_lt (Nat.zero_le i) h5)
  have hie : state2.unseal_keys.isEmpty = false := by
    simpa [List.isEmpty_iff] using hne
  have hUV : unseal_vault ap state2 w2 =
      (.ok (),
       { w2 with
           trace := w2.trace ++
             (state2.unseal_keys.take (i + 1)).map VaultEvent.unsealCall,
           unsealCalls := w2.unsealCalls + (i + 1) }) := by
    rw [unseal_vault, if_neg (by simp [hie])]
    exact unsealLoop_stops_at_first_unsealed ap state2.unseal_keys w2 i h5 h6 h7
  have hmain : bootstrap config ap d0 =
      (.error .postUnsealStillSealed,
       { w2 with
           trace := w2.trace ++
             (state2.unseal_keys.take (i + 1)).map VaultEvent.unsealCall ++
             [.statusQuery],
           unsealCalls := w2.unsealCalls + (i + 1),
           statusCalls := w2.statusCalls + 1 }) := by
    unfold bootstrap
    rw [h1]
    dsimp only
    rw [h2]
    dsimp only [_ensure_unsealed]
    rw [h3]
    simp only [Bool.not_true, Bool.false_eq_true, if_false, hie]
    rw [hUV]
    dsimp only [fetch_vault_status]
    rw [h8]
    dsimp only
    rw [h9]
    simp only [if_true]
  refine ⟨hmain, ?_, ?_, ?_⟩
  · have d1 := discover_countP VaultEvent.isUnseal rfl (fun _ => rfl)
      config ap (World.start d0)
    rw [h1] at d1
    have d2 := ensure_initialized_countP VaultEvent.isUnseal rfl
      (fun _ _ => rfl) (fun _ _ => rfl) config ap (load_state w1) w1
    rw [h2] at d2
    rw [hmain]
    simp only [List.countP_append, d2, d1, countP_unseal_block_isUnseal]
    have : (state2.unseal_keys.take (i + 1)).length = i + 1 := by
      rw [List.length_take]
      omega
    rw [this]
    simp [World.start, VaultEvent.isUnseal, List.countP_cons]
  · have d1 := discover_countP VaultEvent.isConfigure rfl (fun _ => rfl)
      config ap (World.start d0)
    rw [h1] at d1
    have d2 := ensure_initialized_countP VaultEvent.isConfigure rfl
      (fun _ _ => rfl) (fun _ _ => rfl) config ap (load_state w1) w1
    rw [h2] at d2
    rw [hmain]
    simp only [List.countP_append, d2, d1, countP_unseal_block_isConfigure]
    simp [World.start, VaultEvent.isConfigure, List.countP_cons]
  · rw [hmain]
    simp only [List.countP_append, countP_unseal_block_isSave]
    simp [VaultEvent.isSave, List.countP_cons]

/-- Witness for C8: already-initialized appliance, four recorded shares,
unseal succeeds on the 3rd call, yet the follow-up status still reports
sealed: the run ends in `PostUnsealStillSealed` right after that
re-query — 3 unseal calls total, no configure calls, no state writes. -/
theorem post_unseal_still_sealed_aborts_witness :
    bootstrap cfgFixture apPostSealFixture (some statePostSealFixture) =
      (.error .postUnsealStillSealed,
       { trace := [.dropletList, .sshProbe "203.0.113.10", .statusQuery,
                   .unsealCall "k1", .unsealCall "k2", .unsealCall "k3",
                   .statusQuery],
         statusCalls := 2, unsealCalls := 3, sshCalls := 1,
         disk := some statePostSealFixture })
    ∧ (bootstrap cfgFixture apPostSealFixture
        (some statePostSealFixture)).2.trace.countP VaultEvent.isUnseal = 3
    ∧ (bootstrap cfgFixture apPostSealFixture
        (some statePostSealFixture)).2.trace.countP VaultEvent.isConfigure = 0
    ∧ (bootstrap cfgFixture apPostSealFixture
        (some statePostSealFixture)).2.trace.countP VaultEvent.isSave = 0 := by
  have h := post_unseal_still_sealed_aborts cfgFixture apPostSealFixture
    (some statePostSealFixture)
    { trace := [.dropletList, .sshProbe "203.0.113.10"], sshCalls := 1,
      disk := some statePostSealFixture }
    statePostSealFixture { initialized := some true, sealed := some true }
    { trace := [.dropletList, .sshProbe "203.0.113.10", .statusQuery],
      statusCalls := 1, sshCalls := 1, disk := some statePostSealFixture }
    2 { initialized := some true, sealed := some true }
    rfl rfl rfl (by simp [statePostSealFixture])
    (fun j hj => ⟨_, rfl, by simp [apPostSealFixture]; omega⟩)
    ⟨_, rfl, by simp [apPostSealFixture]⟩
    rfl rfl
  exact ⟨h.1, h.2.1, h.2.2.1, h.2.2.2⟩

/-- Claim C10: in every bootstrap run where the initialization and unseal
phases complete but the in-memory state still records no root token
(e.g. an already-initialized appliance whose loaded state file lacks the
token), bootstrap fails with the missing-root-token error exactly at the
world the unseal phase left behind — before any secrets-engine or
identity-provisioning call, and without any state-file write having
occurred in the run. -/
theorem missing_root_token_aborts (config : VaultBootstrapConfig)
    (ap : Appliance) (d0 : Option VaultBootstrapState) (w1 : World)
    (state2 : VaultBootstrapState) (status : StatusPayload) (w2 : World)
    (s2 : StatusPayload) (w3 : World)
    (h1 : _discover_and_verify config ap (World.start d0) = (.ok (), w1))
    (h2 : _ensure_initialized config ap (load_state w1) w1 =
      (.ok (state2, status), w2))
    (hroot : state2.root_token = none)
    (h3 : _ensure_unsealed ap state2 status w2 = (.ok s2, w3)) :
    bootstrap config ap d0 = (.error .missingRootToken, w3)
    ∧ (bootstrap config ap d0).2.trace.countP VaultEvent.isConfigure = 0
    ∧ (bootstrap config ap d0).2.trace.countP VaultEvent.isSave = 0 := by
  have hmain : bootstrap config ap d0 = (.error .missingRootToken, w3) := by
    unfold bootstrap
    rw [h1]
    dsimp only
    rw [h2]
    dsimp only
    rw [h3]
    dsimp only
    rw [hroot]
  refine ⟨hmain, ?_, ?_⟩
  · have c1 := discover_countP VaultEvent.isConfigure rfl (fun _ => rfl)
      config ap (World.start d0)
    rw [h1] at c1
    have c2 := ensure_initialized_countP VaultEvent.isConfigure rfl
      (fun _ _ => rfl) (fun _ _ => rfl) config ap (load_state w1) w1
    rw [h2] at c2
    have c3 := ensure_unsealed_countP VaultEvent.isConfigure rfl
      (fun _ => rfl) ap state2 status w2
    rw [h3] at c3
    rw [hmain]
    dsimp only
    rw [c3, c2, c1]
    simp [World.start]
  · obtain ⟨hst, hw2⟩ := ensure_initialized_skip config ap (load_state w1)
      w1 state2 status w2 h2 hroot
    have s1 := discover_countP VaultEvent.isSave rfl (fun _ => rfl)
      config ap (World.start d0)
    rw [h1] at s1
    have s3 := ensure_unsealed_countP VaultEvent.isSave rfl (fun _ => rfl)
      ap state2 status w2
    rw [h3] at s3
    rw [hmain]
    dsimp only
    rw [s3, hw2]
    simp [List.countP_append, List.countP_cons, VaultEvent.isSave, s1,
      World.start]

/-- Witness for C10: an already-initialized, already-unsealed appliance
with no state file on disk: bootstrap stops with the missing-root-token
error right after the status query — no configure calls, no state
writes. -/
theorem missing_root_token_aborts_witness :
    bootstrap cfgFixture apNoRootFixture none =
      (.error .missingRootToken,
       { trace := [.dropletList, .sshProbe "203.0.113.10", .statusQuery],
         statusCalls := 1, sshCalls := 1 })
    ∧ (bootstrap cfgFixture apNoRootFixture none).2.trace.countP
        VaultEvent.isConfigure = 0
    ∧ (bootstrap cfgFixture apNoRootFixture none).2.trace.countP
        VaultEvent.isSave = 0 := by
  have h := missing_root_token_aborts cfgFixture apNoRootFixture none
    { trace := [.dropletList, .sshProbe "203.0.113.10"], sshCalls := 1 }
    VaultBootstrapState.emptyState
    { initialized := some true, sealed := some false }
    { trace := [.dropletList, .sshProbe "203.0.113.10", .statusQuery],
      statusCalls := 1, sshCalls := 1 }
    { initialized := some true, sealed := some false }
    { trace := [.dropletList, .sshProbe "203.0.113.10", .statusQuery],
      statusCalls := 1, sshCalls := 1 }
    rfl rfl rfl rfl
  exact ⟨h.1, h.2.1, h.2.2⟩

end VaultBootstrap
